import Mathlib

/-!
# webos-connman-adapter: status aggregation and command handling

A shallow embedding of the status mapping, the command handlers and the
change callbacks of `src/connectionmanager_service.c`, and of the WAN status
of `src/wan_service.c`.

* JSON values built with pbnjson are the inductive `jvalue`; an object is an
  insertion-ordered list of members and `jobject_put` replaces the value of a
  key that is already present.
* The connman registry (`manager`) is a read-only snapshot during one handler
  call.  The helpers declared in `connman_manager.h`, `connman_service.h`,
  `connman_technology.h` and `lunaservice_utils.h` have no body in the
  sources; they are the fields of `connman_api`, and the general theorems are
  stated for an arbitrary `connman_api`.
* A handler is a function to `handler_result`: the value returned to the
  luna-service dispatcher and the ordered list of replies, subscription posts
  and registry mutator calls it made.
-/

set_option autoImplicit false

namespace WebosConnman

/-! ## pbnjson values -/

/-- A pbnjson DOM value (`jvalue_ref`).  `jnull` is also what `jdom_parse`
returns for a payload that does not parse (`jis_null`). -/
inductive jvalue where
  | jnull
  | jboolean (b : Bool)
  | jnumber (n : Int)
  | jstring (s : String)
  | jarray (items : List jvalue)
  | jobject (members : List (String × jvalue))

/-- Member list after `jobject_put`: the value of an existing key is replaced
in place, a new key is appended. -/
def members_put : List (String × jvalue) → String → jvalue → List (String × jvalue)
  | [], key, val => [(key, val)]
  | (k, v) :: rest, key, val =>
    if k = key then (k, val) :: rest else (k, v) :: members_put rest key val

/-- Member lookup by key. -/
def members_get : List (String × jvalue) → String → Option jvalue
  | [], _ => none
  | (k, v) :: rest, key => if k = key then some v else members_get rest key

/-- The call `jobject_create()`. -/
def jobject_create : jvalue := jvalue.jobject []

/-- The call `jobject_put(obj, key, val)`; putting into a value that is not an object
fails and leaves it unchanged. -/
def jobject_put (obj : jvalue) (key : String) (val : jvalue) : jvalue :=
  match obj with
  | jvalue.jobject ms => jvalue.jobject (members_put ms key val)
  | other => other

/-- The call `jobject_get_exists(obj, key, &out)`: `some out` when `obj` is an object
holding `key`, `none` when the call returns false. -/
def jobject_get_exists (obj : jvalue) (key : String) : Option jvalue :=
  match obj with
  | jvalue.jobject ms => members_get ms key
  | _ => none

/-- The keys of an object, in insertion order (no key for other values). -/
def jobject_keys (obj : jvalue) : List String :=
  match obj with
  | jvalue.jobject ms => ms.map Prod.fst
  | _ => []

/-- The test `jstring_equal2(val, text)`: `val` is a string with exactly that text. -/
def jstring_equal2 (val : jvalue) (text : String) : Bool :=
  match val with
  | jvalue.jstring s => decide (s = text)
  | _ => false

/-- The copy `g_strdup(jstring_get(val).m_str)`: the text of a string value, NULL
(`none`) for any other value. -/
def jstring_get (val : jvalue) : Option String :=
  match val with
  | jvalue.jstring s => some s
  | _ => none

/-- The test `jis_null(val)`. -/
def jis_null (val : jvalue) : Bool :=
  match val with
  | jvalue.jnull => true
  | _ => false

/-- The call `jarray_size(arr)`; zero for a value that is not an array. -/
def jarray_size (arr : jvalue) : Nat :=
  match arr with
  | jvalue.jarray items => items.length
  | _ => 0

/-- The call `jarray_get(arr, i)`; an invalid index or a non-array yields `jnull`. -/
def jarray_get (arr : jvalue) (i : Nat) : jvalue :=
  match arr with
  | jvalue.jarray items => items.getD i jvalue.jnull
  | _ => jvalue.jnull

/-! ## The connman registry -/

/-- The service states of `connman_service.h`
(`CONNMAN_SERVICE_STATE_*`), the range of `connman_service_get_state`. -/
inductive connman_service_state where
  | CONNMAN_SERVICE_STATE_UNKNOWN
  | CONNMAN_SERVICE_STATE_IDLE
  | CONNMAN_SERVICE_STATE_ASSOCIATION
  | CONNMAN_SERVICE_STATE_CONFIGURATION
  | CONNMAN_SERVICE_STATE_READY
  | CONNMAN_SERVICE_STATE_ONLINE
  | CONNMAN_SERVICE_STATE_DISCONNECT
  | CONNMAN_SERVICE_STATE_FAILURE
  deriving DecidableEq

open connman_service_state

/-- The IPv4 configuration `ipv4info_t`; every field is a `gchar *` that may
be NULL. -/
structure ipv4info_t where
  method : Option String
  address : Option String
  netmask : Option String
  gateway : Option String
  deriving DecidableEq

/-- The IP information `ipinfo_t` of a service.  `dns` is a NULL-terminated
string vector; `g_strv_length` of a NULL vector is 0, so NULL is the empty
list here. -/
structure ipinfo_t where
  iface : Option String
  ipv4 : ipv4info_t
  dns : List String
  deriving DecidableEq

/-- The fields of `connman_service_t` the sources use: `name`, the state
string `state` (read through `connman_service_get_state`), `type` (read
through `connman_service_type_wifi`), `strength` and `ipinfo`. -/
structure connman_service_t where
  name : Option String
  type : Option String
  state : Option String
  strength : Int
  ipinfo : ipinfo_t
  deriving DecidableEq

/-- The field of `connman_technology_t` the sources read. -/
structure connman_technology_t where
  powered : Bool
  deriving DecidableEq

/-- The service lists of `connman_manager_t` (`GSList`s, in list order). -/
structure connman_manager_t where
  wired_services : List connman_service_t
  wifi_services : List connman_service_t
  cellular_services : List connman_service_t
  deriving DecidableEq

/-- The string vector `dns` that `handle_set_dns_command` builds:
`g_new0(GStrv, 1)` gives `allocated` zeroed pointer slots, and the loop stores
`written[i]` at `dns[i]`. -/
structure dns_vector where
  allocated : Nat
  written : List (Option String)
  deriving DecidableEq

/-! ## Replies, posts and mutator calls -/

/-- The reply functions of `lunaservice_utils.h` and `LSMessageReply`. -/
inductive ls_reply where
  | LSMessageReplySuccess
  | LSMessageReplyErrorUnknown
  | LSMessageReplyErrorInvalidParams
  | LSMessageReplyErrorBadJSON
  | LSMessageReplyCustomError (errorText : String)
  | LSMessageReply (payload : jvalue)

/-- The registry mutators the command handlers call. -/
inductive mutator_call where
  | set_wifi_state (state : Bool)
  | set_ethernet_state (state : Bool)
  | set_offline_mode (state : Bool)
  | connman_service_set_ipv4 (service : connman_service_t) (ipv4 : ipv4info_t)
  | connman_service_set_nameservers (service : connman_service_t) (dns : dns_vector)
  deriving DecidableEq

/-- One externally visible action of a handler or callback. -/
inductive effect where
  | reply (r : ls_reply)
  | LSSubscriptionPost (category : String) (method : String) (payload : jvalue)
  | mutate (c : mutator_call)

/-- What a handler did: `ret` is the value it returned to the dispatcher
(`none` when its behaviour became undefined instead: it dereferenced a NULL
`manager`, or it accessed the `dns` vector outside its allocation) and
`effects` its actions in program order up to that point. -/
structure handler_result where
  ret : Option Bool
  effects : List effect

/-- The mutator calls among a list of effects, in order. -/
def mutator_calls : List effect → List mutator_call
  | [] => []
  | effect.mutate c :: rest => c :: mutator_calls rest
  | _ :: rest => mutator_calls rest

/-- The replies among a list of effects, in order. -/
def replies : List effect → List ls_reply
  | [] => []
  | effect.reply r :: rest => r :: replies rest
  | _ :: rest => replies rest

/-- The helpers of the connman layer and of `lunaservice_utils.h` that the
sources call and whose bodies are not in the sources.  A mutator yields the
`gboolean` it returns; `connman_service_get_ipinfo` yields the service with
its `ipinfo` refreshed; `connman_status_check` yields its return value and the
replies it sent. -/
structure connman_api where
  connman_service_get_state : Option String → connman_service_state
  connman_service_get_ipinfo : connman_service_t → connman_service_t
  connman_service_type_wifi : connman_service_t → Bool
  connman_manager_get_connected_service : List connman_service_t → Option connman_service_t
  connman_manager_is_manager_online : Option connman_manager_t → Bool
  connman_manager_is_manager_available : Option connman_manager_t → Bool
  connman_manager_find_wifi_technology : Option connman_manager_t → Option connman_technology_t
  connman_manager_find_ethernet_technology :
    Option connman_manager_t → Option connman_technology_t
  connman_manager_find_cellular_technology :
    Option connman_manager_t → Option connman_technology_t
  connman_technology_set_powered : Option connman_technology_t → Bool → Bool
  connman_manager_set_offline : Option connman_manager_t → Bool → Bool
  connman_service_set_ipv4 : connman_service_t → ipv4info_t → Bool
  connman_service_set_nameservers : connman_service_t → dns_vector → Bool
  connman_status_check : Option connman_manager_t → Bool × List ls_reply
  get_service_mac_address : Option connman_service_t → Option String

/-! ## connectionmanager_service.c: status mapping -/

/-- The guarded put `if (NULL != text) jobject_put(*status, key,
jstring_create(text))`. -/
def put_if_set (status : jvalue) (key : String) (text : Option String) : jvalue :=
  match text with
  | some t => jobject_put status key (jvalue.jstring t)
  | none => status

/-- The loop `for (i = 0; i < g_strv_length(dns); i++)` of
`update_connection_status`, entered with counter `i` and the servers
`dns[i..]` still to visit: `sprintf(dns_str, "dns%d", i+1)` names the key.
The counter is rendered in full decimal (the `int` conversion of `%d` is not
modelled: a name-server vector does not reach 2^31 entries). -/
def put_dns_servers (status : jvalue) : List String → Nat → jvalue
  | [], _ => status
  | d :: rest, i =>
    put_dns_servers (jobject_put status ("dns" ++ toString (i + 1)) (jvalue.jstring d))
      rest (i + 1)

/-- The wifi-only members of `update_connection_status`. -/
def put_wifi_members (status : jvalue) (service : connman_service_t) : jvalue :=
  let status := put_if_set status "ssid" service.name
  let status := jobject_put status "isWakeOnWifiEnabled" (jvalue.jboolean false)
  jobject_put status "signalLevel" (jvalue.jnumber service.strength)

/-- The function `update_connection_status(connected_service, &status)`; the result is the
object `*status` afterwards.  (`status` itself is never NULL in the callers.) -/
def update_connection_status (api : connman_api) (connected_service : Option connman_service_t)
    (status : jvalue) : jvalue :=
  match connected_service with
  | none => status
  | some service0 =>
    let connman_state := api.connman_service_get_state service0.state
    if connman_state = CONNMAN_SERVICE_STATE_ONLINE
        ∨ connman_state = CONNMAN_SERVICE_STATE_READY then
      let service := api.connman_service_get_ipinfo service0
      let status := jobject_put status "state" (jvalue.jstring "connected")
      let status := put_if_set status "interfaceName" service.ipinfo.iface
      let status := put_if_set status "ipAddress" service.ipinfo.ipv4.address
      let status := put_if_set status "netmask" service.ipinfo.ipv4.netmask
      let status := put_if_set status "gateway" service.ipinfo.ipv4.gateway
      let status := put_dns_servers status service.ipinfo.dns 0
      let status := put_if_set status "method" service.ipinfo.ipv4.method
      let status :=
        if api.connman_service_type_wifi service then put_wifi_members status service
        else status
      let s := if connman_state = CONNMAN_SERVICE_STATE_ONLINE then "yes" else "no"
      let status := jobject_put status "onInternet" (jvalue.jstring s)
      jobject_put status "networkConfidenceLevel" (jvalue.jstring "excellent")
    else
      jobject_put status "state" (jvalue.jstring "disconnected")

/-- The section `send_connection_status` stores for one technology: the
mapped status of the representative service when
`connman_manager_get_connected_service` returns one, else the prepared
`{state:"disconnected"}` object. -/
def technology_status (api : connman_api) (services : List connman_service_t) : jvalue :=
  let connected_status := jobject_create
  let disconnected_status :=
    jobject_put jobject_create "state" (jvalue.jstring "disconnected")
  match api.connman_manager_get_connected_service services with
  | some connected_service =>
    update_connection_status api (some connected_service) connected_status
  | none => disconnected_status

/-- The function `send_connection_status(&reply)` for the registry `manager` (the callers
run it only when `manager` is not NULL); the result is `*reply` afterwards. -/
def send_connection_status (api : connman_api) (manager : connman_manager_t)
    (reply : jvalue) : jvalue :=
  let online := api.connman_manager_is_manager_online (some manager)
  let reply := jobject_put reply "isInternetConnectionAvailable" (jvalue.jboolean online)
  let reply := jobject_put reply "offlineMode"
    (jvalue.jstring
      (if !api.connman_manager_is_manager_available (some manager) then "enabled"
       else "disabled"))
  let reply := jobject_put reply "wired" (technology_status api manager.wired_services)
  let reply := jobject_put reply "wifi" (technology_status api manager.wifi_services)
  jobject_put reply "cellular" (technology_status api manager.cellular_services)

/-- The handler `handle_get_status_command` of connectionmanager_service.c.
`subscription` is `none` when `LSMessageIsSubscription` is false and else the
value `LSSubscriptionProcess` left in `subscribed`; `schema_ok` tells whether
`jschema_parse` returned a schema. -/
def handle_get_status_command (api : connman_api) (manager : Option connman_manager_t)
    (subscription : Option Bool) (schema_ok : Bool) : handler_result :=
  let reply := jobject_create
  let reply :=
    match subscription with
    | some subscribed => jobject_put reply "subscribed" (jvalue.jboolean subscribed)
    | none => reply
  let reply :=
    match manager with
    | some m => send_connection_status api m reply
    | none => reply
  let reply := jobject_put reply "returnValue" (jvalue.jboolean true)
  if schema_ok then
    { ret := some true, effects := [effect.reply (ls_reply.LSMessageReply reply)] }
  else
    { ret := some true, effects := [effect.reply ls_reply.LSMessageReplyErrorUnknown] }

/-! ## connectionmanager_service.c: command handlers -/

/-- The function `get_connman_service(ssid)` on the registry `manager`: with an ssid, the
first wifi service whose name is set and equal to it; without, the first wired
service. -/
def get_connman_service (manager : connman_manager_t) (ssid : Option String) :
    Option connman_service_t :=
  match ssid with
  | some ssid =>
    manager.wifi_services.find? (fun service =>
      match service.name with
      | some name => decide (name = ssid)
      | none => false)
  | none =>
    match manager.wired_services with
    | service :: _ => some service
    | [] => none

/-- The function `is_wifi_powered()`. -/
def is_wifi_powered (api : connman_api) (manager : Option connman_manager_t) : Bool :=
  match api.connman_manager_find_wifi_technology manager with
  | some technology => technology.powered
  | none => false

/-- The function `set_wifi_state(state)`: the `gboolean` of the mutator. -/
def set_wifi_state (api : connman_api) (manager : Option connman_manager_t)
    (state : Bool) : Bool :=
  api.connman_technology_set_powered (api.connman_manager_find_wifi_technology manager) state

/-- The function `set_offline_mode(state)`: the `gboolean` of the mutator. -/
def set_offline_mode (api : connman_api) (manager : Option connman_manager_t)
    (state : Bool) : Bool :=
  api.connman_manager_set_offline manager state

/-- The function `is_ethernet_powered()`. -/
def is_ethernet_powered (api : connman_api) (manager : Option connman_manager_t) : Bool :=
  match api.connman_manager_find_ethernet_technology manager with
  | some technology => technology.powered
  | none => false

/-- The function `set_ethernet_state(state)`: the `gboolean` of the mutator. -/
def set_ethernet_state (api : connman_api) (manager : Option connman_manager_t)
    (state : Bool) : Bool :=
  api.connman_technology_set_powered (api.connman_manager_find_ethernet_technology manager)
    state

/-- The `enabled`/`disabled` decoding shared by the three blocks of
`handle_set_state_command`: `some true` for `"enabled"`, `some false` for
`"disabled"`, `none` for anything else (`goto invalid_params`). -/
def parse_enable (obj : jvalue) : Option Bool :=
  if jstring_equal2 obj "enabled" then some true
  else if jstring_equal2 obj "disabled" then some false
  else none

/-- The `wifi` block of `handle_set_state_command`.  `none` is
`goto invalid_params`; otherwise the effects of the block and whether it
cleared `invalidArg`.  The value returned by `set_wifi_state` is discarded by
the handler. -/
def set_state_wifi_block (api : connman_api) (manager : Option connman_manager_t)
    (parsedObj : jvalue) : Option (List effect × Bool) :=
  match jobject_get_exists parsedObj "wifi" with
  | none => some ([], false)
  | some wifiObj =>
    match parse_enable wifiObj with
    | none => none
    | some enable_wifi =>
      if (enable_wifi && is_wifi_powered api manager)
          || (!enable_wifi && !is_wifi_powered api manager) then
        some ([], true)
      else
        some ([effect.mutate (mutator_call.set_wifi_state enable_wifi)], true)

/-- The `wired` block of `handle_set_state_command`, read as
`set_state_wifi_block`. -/
def set_state_wired_block (api : connman_api) (manager : Option connman_manager_t)
    (parsedObj : jvalue) : Option (List effect × Bool) :=
  match jobject_get_exists parsedObj "wired" with
  | none => some ([], false)
  | some wiredObj =>
    match parse_enable wiredObj with
    | none => none
    | some enable_wired =>
      if (enable_wired && is_ethernet_powered api manager)
          || (!enable_wired && !is_ethernet_powered api manager) then
        some ([], true)
      else
        some ([effect.mutate (mutator_call.set_ethernet_state enable_wired)], true)

/-- The `offlineMode` block of `handle_set_state_command`, read as
`set_state_wifi_block`.  The local `offline` holds
`connman_manager_is_manager_available(manager)`. -/
def set_state_offline_block (api : connman_api) (manager : Option connman_manager_t)
    (parsedObj : jvalue) : Option (List effect × Bool) :=
  match jobject_get_exists parsedObj "offlineMode" with
  | none => some ([], false)
  | some offlineObj =>
    match parse_enable offlineObj with
    | none => none
    | some enable_offline =>
      let offline := api.connman_manager_is_manager_available manager
      if (enable_offline && !offline) || (!enable_offline && offline) then
        some ([], true)
      else
        some ([effect.mutate (mutator_call.set_offline_mode enable_offline)], true)

/-- The handler `handle_set_state_command`.  `schema_ok` tells whether `jschema_parse`
returned a schema and `parsedObj` is the result of `jdom_parse` on the
payload. -/
def handle_set_state_command (api : connman_api) (manager : Option connman_manager_t)
    (schema_ok : Bool) (parsedObj : jvalue) : handler_result :=
  if !schema_ok then { ret := some false, effects := [] }
  else if jis_null parsedObj then
    { ret := some true, effects := [effect.reply ls_reply.LSMessageReplyErrorBadJSON] }
  else
    let invalid_params := effect.reply ls_reply.LSMessageReplyErrorInvalidParams
    match set_state_wifi_block api manager parsedObj with
    | none => { ret := some true, effects := [invalid_params] }
    | some (wifi_effects, wifi_given) =>
      match set_state_wired_block api manager parsedObj with
      | none => { ret := some true, effects := wifi_effects ++ [invalid_params] }
      | some (wired_effects, wired_given) =>
        match set_state_offline_block api manager parsedObj with
        | none =>
          { ret := some true, effects := wifi_effects ++ wired_effects ++ [invalid_params] }
        | some (offline_effects, offline_given) =>
          let invalidArg := !(wifi_given || wired_given || offline_given)
          if invalidArg then
            { ret := some true,
              effects := wifi_effects ++ wired_effects ++ offline_effects ++ [invalid_params] }
          else
            { ret := some true,
              effects := wifi_effects ++ wired_effects ++ offline_effects
                ++ [effect.reply ls_reply.LSMessageReplySuccess] }

/-- The handler `handle_set_ipv4_command`, with `schema_ok` and `parsedObj` as in
`handle_set_state_command`. -/
def handle_set_ipv4_command (api : connman_api) (manager : Option connman_manager_t)
    (schema_ok : Bool) (parsedObj : jvalue) : handler_result :=
  let check := api.connman_status_check manager
  let sent := check.2.map effect.reply
  if !check.1 then { ret := some true, effects := sent }
  else if !schema_ok then { ret := some false, effects := sent }
  else if jis_null parsedObj then
    { ret := some true, effects := sent ++ [effect.reply ls_reply.LSMessageReplyErrorBadJSON] }
  else
    let methodObj := jobject_get_exists parsedObj "method"
    let addressObj := jobject_get_exists parsedObj "address"
    let netmaskObj := jobject_get_exists parsedObj "netmask"
    let gatewayObj := jobject_get_exists parsedObj "gateway"
    let ssidObj := jobject_get_exists parsedObj "ssid"
    let ipv4 : ipv4info_t :=
      { method := methodObj.bind jstring_get
        address := addressObj.bind jstring_get
        netmask := netmaskObj.bind jstring_get
        gateway := gatewayObj.bind jstring_get }
    let ssid := ssidObj.bind jstring_get
    let invalidArg := methodObj.isNone && addressObj.isNone && netmaskObj.isNone
      && gatewayObj.isNone && ssidObj.isNone
    if invalidArg then
      { ret := some true,
        effects := sent ++ [effect.reply ls_reply.LSMessageReplyErrorInvalidParams] }
    else
      match manager with
      | none => { ret := none, effects := sent }
      | some m =>
        match get_connman_service m ssid with
        | some service =>
          let call := effect.mutate (mutator_call.connman_service_set_ipv4 service ipv4)
          if api.connman_service_set_ipv4 service ipv4 then
            { ret := some true,
              effects := sent ++ [call, effect.reply ls_reply.LSMessageReplySuccess] }
          else
            { ret := some true,
              effects := sent ++ [call, effect.reply ls_reply.LSMessageReplyErrorUnknown] }
        | none =>
          { ret := some true,
            effects := sent
              ++ [effect.reply (ls_reply.LSMessageReplyCustomError "Network not found")] }

/-- The vector `handle_set_dns_command` builds from the `dns` member:
one slot from `g_new0(GStrv, 1)`, then `dns[i] = g_strdup(...)` for every
`i < jarray_size(dnsObj)`. -/
def build_dns_vector (dnsObj : jvalue) : dns_vector :=
  { allocated := 1
    written := (List.range (jarray_size dnsObj)).map
      (fun i => jstring_get (jarray_get dnsObj i)) }

/-- The store `dns[i] = ...` falls inside the slots obtained from `g_new0`. -/
def dns_store_in_bounds (dns : dns_vector) (i : Nat) : Prop := i < dns.allocated

instance (dns : dns_vector) (i : Nat) : Decidable (dns_store_in_bounds dns i) := by
  unfold dns_store_in_bounds; infer_instance

/-- The vector has room for all its entries and the terminating NULL: every
store of the loop is in bounds, and so is the slot after the last stored
entry (still NULL from `g_new0`). -/
def dns_vector_has_room (dns : dns_vector) : Prop :=
  (∀ i, i < dns.written.length → dns_store_in_bounds dns i)
    ∧ dns_store_in_bounds dns dns.written.length

/-- The slots of the allocation after the loop, in order: slot `i` holds
`written[i]` when the loop stored there and is NULL otherwise. -/
def dns_vector_slots (dns : dns_vector) : List (Option String) :=
  (List.range dns.allocated).map (fun i => (dns.written.get? i).join)

/-- What a reader of a NULL-terminated string vector obtains from the given
slots: the strings before the first NULL slot, or `none` when no slot is NULL
and the reader runs past the last slot. -/
def read_strv : List (Option String) → Option (List String)
  | [] => none
  | none :: _ => some []
  | some text :: rest => (read_strv rest).map (fun texts => text :: texts)

/-- Some store `dns[i]` of the loop falls outside the allocated slots: the
loop writes past the end of the block. -/
def dns_stores_overflow (dns : dns_vector) : Bool :=
  decide (dns.allocated < dns.written.length)

/-- A reader of the NULL-terminated vector (`connman_service_set_nameservers`,
`g_strfreev`) finds no NULL slot inside the allocation and reads past its
end. -/
def dns_read_overflows (dns : dns_vector) : Bool :=
  (read_strv (dns_vector_slots dns)).isNone

/-- The handler `handle_set_dns_command`, with `schema_ok` and `parsedObj` as in
`handle_set_state_command`.  The behaviour is undefined, and the handler does
not return (`ret := none`), from the first access outside the one-slot `dns`
vector: a store `dns[i]` of the loop past the block (before the target is
looked up), the walk of `connman_service_set_nameservers` over a vector
without a NULL slot, or that of `g_strfreev(dns)` at `Exit`. -/
def handle_set_dns_command (api : connman_api) (manager : Option connman_manager_t)
    (schema_ok : Bool) (parsedObj : jvalue) : handler_result :=
  let check := api.connman_status_check manager
  let sent := check.2.map effect.reply
  if !check.1 then { ret := some true, effects := sent }
  else if !schema_ok then { ret := some false, effects := sent }
  else if jis_null parsedObj then
    { ret := some true, effects := sent ++ [effect.reply ls_reply.LSMessageReplyErrorBadJSON] }
  else
    match jobject_get_exists parsedObj "dns" with
    | none =>
      { ret := some true,
        effects := sent ++ [effect.reply ls_reply.LSMessageReplyErrorInvalidParams] }
    | some dnsObj =>
      let dns := build_dns_vector dnsObj
      if dns_stores_overflow dns then { ret := none, effects := sent }
      else
        let ssid := (jobject_get_exists parsedObj "ssid").bind jstring_get
        match manager with
        | none => { ret := none, effects := sent }
        | some m =>
          match get_connman_service m ssid with
          | some service =>
            let call :=
              effect.mutate (mutator_call.connman_service_set_nameservers service dns)
            if dns_read_overflows dns then { ret := none, effects := sent ++ [call] }
            else if api.connman_service_set_nameservers service dns then
              { ret := some true,
                effects := sent ++ [call, effect.reply ls_reply.LSMessageReplySuccess] }
            else
              { ret := some true,
                effects := sent ++ [call, effect.reply ls_reply.LSMessageReplyErrorUnknown] }
          | none =>
            let replied := sent
              ++ [effect.reply (ls_reply.LSMessageReplyCustomError "No connected network")]
            if dns_read_overflows dns then { ret := none, effects := replied }
            else { ret := some true, effects := replied }

/-! ## Auxiliary notions used in the statements -/

/-- The value is an object. -/
def jis_object (val : jvalue) : Bool :=
  match val with
  | jvalue.jobject _ => true
  | _ => false

/-- The key starts with `dns`. -/
def dns_prefixed (key : String) : Prop := ∃ rest : String, key = "dns" ++ rest

/-- The state decoded by `connman_service_get_state` is ready or online. -/
def state_connected (api : connman_api) (service : connman_service_t) : Prop :=
  api.connman_service_get_state service.state = CONNMAN_SERVICE_STATE_READY
    ∨ api.connman_service_get_state service.state = CONNMAN_SERVICE_STATE_ONLINE

instance (api : connman_api) (service : connman_service_t) :
    Decidable (state_connected api service) := by
  unfold state_connected; infer_instance

/-- The state a `setstate` request asks for under `key`: `none` when the key
is absent or its value is neither `"enabled"` nor `"disabled"`. -/
def requested_state (parsedObj : jvalue) (key : String) : Option Bool :=
  (jobject_get_exists parsedObj key).bind parse_enable

/-- Every key among `wifi`, `wired`, `offlineMode` that the request holds has
the value `"enabled"` or `"disabled"`. -/
def set_state_values_valid (parsedObj : jvalue) : Prop :=
  ∀ key, key ∈ ["wifi", "wired", "offlineMode"] →
    ∀ val, jobject_get_exists parsedObj key = some val →
      val = jvalue.jstring "enabled" ∨ val = jvalue.jstring "disabled"

/-- A concrete instance of the helper interface, used to evaluate the
embedding on examples.  States are decoded from connman's state strings, the
representative of a list is its first service that is connecting or connected,
the registry is online and available, wifi is present and powered off,
ethernet is present and powered on, there is no cellular technology, the
power switch of a technology fails and the other mutators succeed. -/
def reference_api : connman_api where
  connman_service_get_state := fun state =>
    if state = some "idle" then CONNMAN_SERVICE_STATE_IDLE
    else if state = some "association" then CONNMAN_SERVICE_STATE_ASSOCIATION
    else if state = some "configuration" then CONNMAN_SERVICE_STATE_CONFIGURATION
    else if state = some "ready" then CONNMAN_SERVICE_STATE_READY
    else if state = some "online" then CONNMAN_SERVICE_STATE_ONLINE
    else if state = some "disconnect" then CONNMAN_SERVICE_STATE_DISCONNECT
    else if state = some "failure" then CONNMAN_SERVICE_STATE_FAILURE
    else CONNMAN_SERVICE_STATE_UNKNOWN
  connman_service_get_ipinfo := fun service => service
  connman_service_type_wifi := fun service => service.type = some "wifi"
  connman_manager_get_connected_service := fun services =>
    services.find? (fun service =>
      service.state = some "association" || service.state = some "configuration"
        || service.state = some "ready" || service.state = some "online")
  connman_manager_is_manager_online := fun _ => true
  connman_manager_is_manager_available := fun manager => manager.isSome
  connman_manager_find_wifi_technology := fun manager =>
    manager.map (fun _ => { powered := false })
  connman_manager_find_ethernet_technology := fun manager =>
    manager.map (fun _ => { powered := true })
  connman_manager_find_cellular_technology := fun _ => none
  connman_technology_set_powered := fun _ _ => false
  connman_manager_set_offline := fun _ _ => true
  connman_service_set_ipv4 := fun _ _ => true
  connman_service_set_nameservers := fun _ _ => true
  connman_status_check := fun manager =>
    match manager with
    | some _ => (true, [])
    | none => (false, [ls_reply.LSMessageReplyCustomError "Connman service unavailable"])
  get_service_mac_address := fun _ => none

/-- A wired service that is online with a DHCP lease and two name servers. -/
def wired_online : connman_service_t :=
  { name := some "Wired"
    type := some "ethernet"
    state := some "online"
    strength := 0
    ipinfo :=
      { iface := some "eth0"
        ipv4 :=
          { method := some "dhcp"
            address := some "192.168.1.5"
            netmask := some "255.255.255.0"
            gateway := some "192.168.1.1" }
        dns := ["8.8.8.8", "1.1.1.1"] } }

/-- A wifi service named `home` that is ready. -/
def wifi_ready : connman_service_t :=
  { name := some "home"
    type := some "wifi"
    state := some "ready"
    strength := 67
    ipinfo :=
      { iface := some "wlan0"
        ipv4 :=
          { method := some "dhcp"
            address := some "10.0.0.7"
            netmask := some "255.255.255.0"
            gateway := some "10.0.0.1" }
        dns := ["10.0.0.1"] } }

/-- A registry holding `wired_online` and `wifi_ready`. -/
def sample_manager : connman_manager_t :=
  { wired_services := [wired_online]
    wifi_services := [wifi_ready]
    cellular_services := [] }

/-- The wired service of the end-to-end scenario: online, DHCP lease
192.168.1.5/255.255.255.0 via 192.168.1.1, name server 8.8.8.8. -/
def scenario_service : connman_service_t :=
  { name := some "Wired"
    type := some "ethernet"
    state := some "online"
    strength := 0
    ipinfo :=
      { iface := some "eth0"
        ipv4 :=
          { method := some "dhcp"
            address := some "192.168.1.5"
            netmask := some "255.255.255.0"
            gateway := some "192.168.1.1" }
        dns := ["8.8.8.8"] } }

/-- The registry of the end-to-end scenario: `scenario_service` and no wifi
service. -/
def scenario_manager : connman_manager_t :=
  { wired_services := [scenario_service]
    wifi_services := []
    cellular_services := [] }

/-- The keys the wired section of the end-to-end scenario is claimed to
hold. -/
def scenario_claimed_keys : List String :=
  ["state", "interfaceName", "ipAddress", "netmask", "gateway", "dns1", "method",
    "onInternet"]

/-- The mutator call one key of a `setstate` request calls for: the call
with the requested state when a state is requested and differs from the
current one, no call otherwise. -/
def call_on_mismatch (requested : Option Bool) (current : Bool)
    (call : Bool → mutator_call) : List mutator_call :=
  match requested with
  | some state => if state = current then [] else [call state]
  | none => []

/-- The service selector of a `setipv4`/`setdns` request: the text of its
`ssid` member. -/
def request_ssid (parsedObj : jvalue) : Option String :=
  (jobject_get_exists parsedObj "ssid").bind jstring_get

/-- The selector matches no service: an ssid that no wifi service is named,
or no ssid and an empty wired list. -/
def selects_no_service (manager : connman_manager_t) (ssid : Option String) : Prop :=
  (∃ text, ssid = some text ∧ ∀ service, service ∈ manager.wifi_services →
      service.name ≠ some text)
    ∨ (ssid = none ∧ manager.wired_services = [])

/-- The helper interface `reference_api` with the wifi technology powered
on. -/
def wifi_on_api : connman_api :=
  { reference_api with
    connman_manager_find_wifi_technology := fun manager =>
      manager.map (fun _ => { powered := true }) }


/-! ## connectionmanager_service.c: getinfo and notifications -/

/-- The handler `handle_get_info_command`.  It reads `manager->wifi_services`
without a NULL test; `schema_ok` tells whether `jschema_parse` returned a
schema. -/
def handle_get_info_command (api : connman_api) (manager : Option connman_manager_t)
    (schema_ok : Bool) : handler_result :=
  match manager with
  | none => { ret := none, effects := [] }
  | some m =>
    let reply := jobject_put jobject_create "returnValue" (jvalue.jboolean true)
    let connected_wifi_service := api.connman_manager_get_connected_service m.wifi_services
    let reply :=
      match api.get_service_mac_address connected_wifi_service with
      | some wifi_mac_address =>
        jobject_put reply "wifiInfo"
          (jobject_put jobject_create "macAddress" (jvalue.jstring wifi_mac_address))
      | none => reply
    let connected_wired_service := api.connman_manager_get_connected_service m.wired_services
    let reply :=
      match api.get_service_mac_address connected_wired_service with
      | some wired_mac_address =>
        jobject_put reply "wiredInfo"
          (jobject_put jobject_create "macAddress" (jvalue.jstring wired_mac_address))
      | none => reply
    if schema_ok then
      { ret := some true, effects := [effect.reply (ls_reply.LSMessageReply reply)] }
    else
      { ret := some true, effects := [effect.reply ls_reply.LSMessageReplyErrorUnknown] }

/-- The function `connectionmanager_send_status()`: the posts it makes, in
order.  Nothing is posted when `jschema_parse` returns no schema. -/
def connectionmanager_send_status (api : connman_api) (manager : Option connman_manager_t)
    (schema_ok : Bool) : List effect :=
  let reply := jobject_create
  let reply := jobject_put reply "returnValue" (jvalue.jboolean true)
  let reply :=
    match manager with
    | some m => send_connection_status api m reply
    | none => reply
  let reply := jobject_put reply "returnValue" (jvalue.jboolean true)
  if schema_ok then
    [effect.LSSubscriptionPost "/" "getstatus" reply,
     effect.LSSubscriptionPost "/" "getStatus" reply]
  else []

/-- The callback `technology_property_changed_callback(data, property,
value)`, `technology` being `data`. -/
def technology_property_changed_callback (api : connman_api)
    (manager : Option connman_manager_t) (technology : Option connman_technology_t)
    (property : String) (schema_ok : Bool) : List effect :=
  match technology with
  | none => []
  | some _ =>
    if property = "Powered" ∨ property = "Connected" then
      connectionmanager_send_status api manager schema_ok
    else []

/-- What one run of a GLib timeout callback did: `ret` is the `gboolean` it
returned (`none` when control reached the end of the body without a `return`
statement, so that the value GLib reads is indeterminate) and `registered`
the technologies it registered the change callback on. -/
structure timeout_result where
  ret : Option Bool
  registered : List connman_technology_t

/-- The timeout callback `check_cellular_status_cb`.  Its body has no
`return` statement. -/
def check_cellular_status_cb (api : connman_api) (manager : Option connman_manager_t) :
    timeout_result :=
  match api.connman_manager_find_cellular_technology manager with
  | some technology => { ret := none, registered := [technology] }
  | none => { ret := none, registered := [] }

/-- The end of `initialize_connectionmanager_ls2_calls` (after the luna
registration): the technologies the change callback is registered on, and the
interval of the timeout added for `check_cellular_status_cb`, if one is
added. -/
def initialize_technology_callbacks (api : connman_api)
    (manager : Option connman_manager_t) : List connman_technology_t × Option Nat :=
  let wired :=
    match api.connman_manager_find_ethernet_technology manager with
    | some technology => [technology]
    | none => []
  match api.connman_manager_find_cellular_technology manager with
  | some technology => (wired ++ [technology], none)
  | none => (wired, some 500)

/-! ## wan_service.c -/

/-- The technology type of `connman_technology.h` that wan_service.c names. -/
inductive connman_technology_type where
  | CONNMAN_TECHNOLOGY_CELLULAR
  deriving DecidableEq

/-- The helper interface of wan_service.c: that of `connman_api` and
`connman_manager_find_technology`, whose body is not in the sources either. -/
structure wan_api extends connman_api where
  connman_manager_find_technology :
    Option connman_manager_t → connman_technology_type → Option connman_technology_t

/-- The call `jarray_create(NULL)`. -/
def jarray_create : jvalue := jvalue.jarray []

/-- The call `jarray_append(arr, val)`; appending to a value that is not an
array fails and leaves it unchanged. -/
def jarray_append (arr : jvalue) (val : jvalue) : jvalue :=
  match arr with
  | jvalue.jarray items => jvalue.jarray (items ++ [val])
  | other => other

/-- The function `is_cellular_powered()`. -/
def is_cellular_powered (api : wan_api) (manager : Option connman_manager_t) : Bool :=
  match api.connman_manager_find_technology manager
      connman_technology_type.CONNMAN_TECHNOLOGY_CELLULAR with
  | some technology => technology.powered
  | none => false

/-- The function `cellular_technology_status_check(sh, message)`: its return
value and the replies it sent. -/
def cellular_technology_status_check (api : wan_api) (manager : Option connman_manager_t) :
    Bool × List ls_reply :=
  match api.connman_manager_find_technology manager
      connman_technology_type.CONNMAN_TECHNOLOGY_CELLULAR with
  | none => (false, [ls_reply.LSMessageReplyCustomError "Cellular technology unavailable"])
  | some _ => (true, [])

/-- The function `service_to_wan_status(service)`.  The `default` branch of
the switch (`"unknown"`) is not reached by any of the eight states. -/
def service_to_wan_status (api : connman_api) (service : connman_service_t) : String :=
  match api.connman_service_get_state service.state with
  | CONNMAN_SERVICE_STATE_ASSOCIATION => "connecting"
  | CONNMAN_SERVICE_STATE_CONFIGURATION => "connecting"
  | CONNMAN_SERVICE_STATE_READY => "connecting"
  | CONNMAN_SERVICE_STATE_ONLINE => "active"
  | CONNMAN_SERVICE_STATE_DISCONNECT => "disconnected"
  | CONNMAN_SERVICE_STATE_FAILURE => "disconnected"
  | CONNMAN_SERVICE_STATE_UNKNOWN => "disconnected"
  | CONNMAN_SERVICE_STATE_IDLE => "disconnected"

/-- The function `add_connected_service_status(reply_obj, service)`; the
result is `reply_obj` afterwards. -/
def add_connected_service_status (api : connman_api) (reply_obj : jvalue)
    (service : Option connman_service_t) : jvalue :=
  match service with
  | none => reply_obj
  | some service =>
    let reply_obj := jobject_put reply_obj "connectstatus"
      (jvalue.jstring (service_to_wan_status api service))
    let provided_services_obj := jarray_create
    let provided_services_obj := jarray_append provided_services_obj (jvalue.jstring "internet")
    jobject_put reply_obj "service" provided_services_obj

/-- The loop of `create_connection_status_reply` over the cellular services
still to visit, entered with the array and the flag `dataaccess_usable` built
so far. -/
def connected_services_loop (api : connman_api) :
    List connman_service_t → jvalue → Bool → jvalue × Bool
  | [], connected_services_obj, dataaccess_usable =>
    (connected_services_obj, dataaccess_usable)
  | connected_service :: rest, connected_services_obj, dataaccess_usable =>
    let service_obj := jobject_create
    let service_obj := add_connected_service_status api service_obj (some connected_service)
    connected_services_loop api rest (jarray_append connected_services_obj service_obj)
      (dataaccess_usable
        || decide (api.connman_service_get_state connected_service.state
            = CONNMAN_SERVICE_STATE_ONLINE))

/-- The function `create_connection_status_reply(reply)` for the registry
`manager`; the result is `reply` afterwards. -/
def create_connection_status_reply (api : wan_api) (manager : connman_manager_t)
    (reply : jvalue) : jvalue :=
  let reply := jobject_put reply "state"
    (jvalue.jstring (if is_cellular_powered api (some manager) then "enabled" else "disabled"))
  let reply := jobject_put reply "networkstatus"
    (jvalue.jstring (if !manager.cellular_services.isEmpty then "attached" else "notattached"))
  let loop := connected_services_loop api.toconnman_api manager.cellular_services
    jarray_create false
  let reply := jobject_put reply "dataaccess"
    (jvalue.jstring (if loop.2 then "usable" else "unusable"))
  let reply := jobject_put reply "networktype" (jvalue.jstring "umts")
  jobject_put reply "connectedservices" loop.1

/-- The function `send_connection_status_update()`: the posts it makes, or
`none` when it dereferences a NULL `manager`. -/
def send_connection_status_update (api : wan_api) (manager : Option connman_manager_t)
    (schema_ok : Bool) : Option (List effect) :=
  let reply_obj := jobject_create
  let reply_obj := jobject_put reply_obj "returnValue" (jvalue.jboolean true)
  match manager with
  | none => none
  | some m =>
    let reply_obj := create_connection_status_reply api m reply_obj
    if schema_ok then some [effect.LSSubscriptionPost "/" "getstatus" reply_obj]
    else some []

/-- The function `register_for_cellular_service_updates()`: the services it
registers `celluar_service_changed_cb` on. -/
def register_for_cellular_service_updates (manager : connman_manager_t) :
    List connman_service_t :=
  manager.cellular_services

/-- The callback `cellular_services_changed_cb(data)`: the services it
registered the service callback on and the posts it made, or `none` when it
dereferences a NULL `manager`. -/
def cellular_services_changed_cb (api : wan_api) (manager : Option connman_manager_t)
    (schema_ok : Bool) : Option (List connman_service_t × List effect) :=
  match manager with
  | none => none
  | some m =>
    match send_connection_status_update api (some m) schema_ok with
    | some posted => some (register_for_cellular_service_updates m, posted)
    | none => none

/-- The handler `handle_get_status_command` of wan_service.c, with
`subscription` and `schema_ok` as in the handler of the same name of
connectionmanager_service.c. -/
def wan_handle_get_status_command (api : wan_api) (manager : Option connman_manager_t)
    (subscription : Option Bool) (schema_ok : Bool) : handler_result :=
  let reply := jobject_create
  let reply :=
    match subscription with
    | some subscribed => jobject_put reply "subscribed" (jvalue.jboolean subscribed)
    | none => reply
  let check := api.connman_status_check manager
  let sent := check.2.map effect.reply
  if !check.1 then { ret := some true, effects := sent }
  else
    let cellular := cellular_technology_status_check api manager
    let sent := sent ++ cellular.2.map effect.reply
    if !cellular.1 then { ret := some true, effects := sent }
    else
      let reply := jobject_put reply "returnValue" (jvalue.jboolean true)
      match manager with
      | none => { ret := none, effects := sent }
      | some m =>
        let reply := create_connection_status_reply api m reply
        if schema_ok then
          { ret := some true,
            effects := sent ++ [effect.reply (ls_reply.LSMessageReply reply)] }
        else
          { ret := some true,
            effects := sent ++ [effect.reply ls_reply.LSMessageReplyErrorUnknown] }

/-! ## Further notions used in the statements -/

/-- The subscription posts among a list of effects, in order: method name
and payload. -/
def posts : List effect → List (String × jvalue)
  | [] => []
  | effect.LSSubscriptionPost _ method payload :: rest => (method, payload) :: posts rest
  | _ :: rest => posts rest

/-- The IPv4 settings a `setipv4` request carries: the text of each of its
four members, NULL for a member that is absent or not a string. -/
def request_ipv4 (parsedObj : jvalue) : ipv4info_t :=
  { method := (jobject_get_exists parsedObj "method").bind jstring_get
    address := (jobject_get_exists parsedObj "address").bind jstring_get
    netmask := (jobject_get_exists parsedObj "netmask").bind jstring_get
    gateway := (jobject_get_exists parsedObj "gateway").bind jstring_get }

/-- The entry the WAN document is to hold for one cellular service:
`{connectstatus: service_to_wan_status(s), service:["internet"]}`. -/
def connected_service_entry (api : connman_api) (service : connman_service_t) : jvalue :=
  jvalue.jobject
    [("connectstatus", jvalue.jstring (service_to_wan_status api service)),
     ("service", jvalue.jarray [jvalue.jstring "internet"])]

/-- The helper interface `reference_api` for wan_service.c, without a
cellular technology. -/
def reference_wan_api : wan_api :=
  { reference_api with connman_manager_find_technology := fun _ _ => none }

/-- The helper interface `reference_api` for wan_service.c, with a cellular
technology that is powered on. -/
def cellular_wan_api : wan_api :=
  { reference_api with
    connman_manager_find_technology := fun manager _ =>
      manager.map (fun _ => { powered := true }) }

/-- The helper interface `reference_api` with mutators that fail. -/
def failing_api : connman_api :=
  { reference_api with
    connman_service_set_ipv4 := fun _ _ => false
    connman_service_set_nameservers := fun _ _ => false }

/-- A cellular service that is online. -/
def cellular_online : connman_service_t :=
  { name := some "operator"
    type := some "cellular"
    state := some "online"
    strength := 80
    ipinfo :=
      { iface := some "rmnet0"
        ipv4 := { method := some "fixed", address := some "10.64.0.2", netmask := none,
                  gateway := none }
        dns := [] } }

/-- A cellular service that is idle. -/
def cellular_idle : connman_service_t :=
  { cellular_online with state := some "idle" }

/-- A registry with an idle and an online cellular service, in this order. -/
def cellular_manager : connman_manager_t :=
  { wired_services := []
    wifi_services := []
    cellular_services := [cellular_idle, cellular_online] }

/-- The document `connectionmanager_send_status` serialises and posts. -/
def status_notification (api : connman_api) (manager : Option connman_manager_t) : jvalue :=
  jobject_put
    (match manager with
      | some m =>
        send_connection_status api m
          (jobject_put jobject_create "returnValue" (jvalue.jboolean true))
      | none => jobject_put jobject_create "returnValue" (jvalue.jboolean true))
    "returnValue" (jvalue.jboolean true)

/-- Some service of the list is online. -/
def any_online (api : connman_api) (services : List connman_service_t) : Bool :=
  services.any (fun service =>
    decide (api.connman_service_get_state service.state = CONNMAN_SERVICE_STATE_ONLINE))

/-! ## Lemmas on objects -/

theorem members_get_put_same (ms : List (String × jvalue)) (key : String) (val : jvalue) :
    members_get (members_put ms key val) key = some val := by
  induction ms with
  | nil => simp [members_put, members_get]
  | cons kv rest ih =>
    obtain ⟨k, v⟩ := kv
    by_cases h : k = key
    · simp [members_put, members_get, h]
    · simp [members_put, members_get, h, ih]

theorem members_get_put_ne (ms : List (String × jvalue)) (key other : String) (val : jvalue)
    (h : other ≠ key) :
    members_get (members_put ms key val) other = members_get ms other := by
  induction ms with
  | nil => simp [members_put, members_get, Ne.symm h]
  | cons kv rest ih =>
    obtain ⟨k, v⟩ := kv
    by_cases hk : k = key
    · subst hk
      simp [members_put, members_get, Ne.symm h]
    · by_cases ho : k = other
      · subst ho
        simp [members_put, members_get, h]
      · simp [members_put, members_get, hk, ho, ih]

theorem members_keys_put (ms : List (String × jvalue)) (key : String) (val : jvalue) :
    (members_put ms key val).map Prod.fst =
      if key ∈ ms.map Prod.fst then ms.map Prod.fst else ms.map Prod.fst ++ [key] := by
  induction ms with
  | nil => simp [members_put]
  | cons kv rest ih =>
    obtain ⟨k, v⟩ := kv
    by_cases hk : k = key
    · subst hk
      simp [members_put]
    · have hk2 : ¬ key = k := fun e => hk e.symm
      by_cases hm : key ∈ rest.map Prod.fst
      · simp only [members_put, hk, if_false, List.map_cons, ih, hm, if_true, List.mem_cons,
          or_true]
      · simp only [members_put, hk, if_false, List.map_cons, ih, hm, List.mem_cons, hk2,
          or_self, List.cons_append]

theorem jis_object_put (obj : jvalue) (key : String) (val : jvalue) :
    jis_object (jobject_put obj key val) = jis_object obj := by
  cases obj <;> rfl

theorem jobject_get_put_same (obj : jvalue) (key : String) (val : jvalue)
    (h : jis_object obj = true) :
    jobject_get_exists (jobject_put obj key val) key = some val := by
  cases obj <;> simp [jis_object] at h
  simp [jobject_put, jobject_get_exists, members_get_put_same]

theorem jobject_get_put_ne (obj : jvalue) (key other : String) (val : jvalue)
    (h : other ≠ key) :
    jobject_get_exists (jobject_put obj key val) other = jobject_get_exists obj other := by
  cases obj <;> simp [jobject_put, jobject_get_exists]
  exact members_get_put_ne _ _ _ _ h

theorem jobject_keys_put (obj : jvalue) (key : String) (val : jvalue)
    (h : jis_object obj = true) :
    jobject_keys (jobject_put obj key val) =
      if key ∈ jobject_keys obj then jobject_keys obj else jobject_keys obj ++ [key] := by
  cases obj <;> simp [jis_object] at h
  simp only [jobject_put, jobject_keys, members_keys_put]

theorem jis_object_put_if_set (obj : jvalue) (key : String) (text : Option String) :
    jis_object (put_if_set obj key text) = jis_object obj := by
  cases text <;> simp [put_if_set, jis_object_put]

theorem jobject_get_put_if_set_ne (obj : jvalue) (key other : String) (text : Option String)
    (h : other ≠ key) :
    jobject_get_exists (put_if_set obj key text) other = jobject_get_exists obj other := by
  cases text <;> simp [put_if_set, jobject_get_put_ne _ _ _ _ h]

/-! ## Keys of the name-server loop -/

theorem dns_prefixed_data (key : String) (h : dns_prefixed key) :
    key.data.take 3 = ['d', 'n', 's'] := by
  obtain ⟨rest, rfl⟩ := h
  simp [String.data_append]

theorem dns_key_ne (key : String) (h : key.data.take 3 ≠ ['d', 'n', 's']) (n : Nat) :
    key ≠ "dns" ++ toString n :=
  fun e => h (dns_prefixed_data key ⟨toString n, e⟩)

theorem jis_object_put_dns_servers (dns : List String) :
    ∀ (obj : jvalue) (i : Nat), jis_object (put_dns_servers obj dns i) = jis_object obj := by
  induction dns with
  | nil => intro obj i; rfl
  | cons d rest ih =>
    intro obj i
    simp [put_dns_servers, ih, jis_object_put]

theorem jobject_get_put_dns_servers_other (dns : List String) (key : String)
    (h : key.data.take 3 ≠ ['d', 'n', 's']) :
    ∀ (obj : jvalue) (i : Nat),
      jobject_get_exists (put_dns_servers obj dns i) key = jobject_get_exists obj key := by
  induction dns with
  | nil => intro obj i; rfl
  | cons d rest ih =>
    intro obj i
    simp [put_dns_servers, ih, jobject_get_put_ne _ _ _ _ (dns_key_ne key h (i + 1))]

theorem jis_object_put_wifi_members (obj : jvalue) (service : connman_service_t) :
    jis_object (put_wifi_members obj service) = jis_object obj := by
  simp [put_wifi_members, jis_object_put, jis_object_put_if_set]

theorem update_connection_status_disconnected (api : connman_api)
    (service : connman_service_t) (status : jvalue) (h : ¬ state_connected api service) :
    update_connection_status api (some service) status =
      jobject_put status "state" (jvalue.jstring "disconnected") := by
  have h1 : ¬ (api.connman_service_get_state service.state = CONNMAN_SERVICE_STATE_ONLINE
      ∨ api.connman_service_get_state service.state = CONNMAN_SERVICE_STATE_READY) :=
    fun e => h (Or.symm e)
  simp only [update_connection_status, h1, if_false]

theorem update_connection_status_state (api : connman_api)
    (service : connman_service_t) (status : jvalue) (hobj : jis_object status = true)
    (h : state_connected api service) :
    jobject_get_exists (update_connection_status api (some service) status) "state" =
      some (jvalue.jstring "connected") := by
  have h1 : api.connman_service_get_state service.state = CONNMAN_SERVICE_STATE_ONLINE
      ∨ api.connman_service_get_state service.state = CONNMAN_SERVICE_STATE_READY :=
    Or.symm h
  simp only [update_connection_status, h1, if_true]
  rw [jobject_get_put_ne _ _ _ _ (by decide), jobject_get_put_ne _ _ _ _ (by decide)]
  have hw : ∀ obj : jvalue,
      jobject_get_exists
        (if api.connman_service_type_wifi (api.connman_service_get_ipinfo service) = true
          then put_wifi_members obj (api.connman_service_get_ipinfo service) else obj) "state"
        = jobject_get_exists obj "state" := by
    intro obj
    split
    · simp only [put_wifi_members]
      rw [jobject_get_put_ne _ _ _ _ (by decide), jobject_get_put_ne _ _ _ _ (by decide),
        jobject_get_put_if_set_ne _ _ _ _ (by decide)]
    · rfl
  rw [hw, jobject_get_put_if_set_ne _ _ _ _ (by decide),
    jobject_get_put_dns_servers_other _ _ (by decide),
    jobject_get_put_if_set_ne _ _ _ _ (by decide),
    jobject_get_put_if_set_ne _ _ _ _ (by decide),
    jobject_get_put_if_set_ne _ _ _ _ (by decide),
    jobject_get_put_if_set_ne _ _ _ _ (by decide),
    jobject_get_put_same _ _ _ hobj]

theorem update_connection_status_onInternet (api : connman_api)
    (service : connman_service_t) (status : jvalue) (hobj : jis_object status = true)
    (h : state_connected api service) :
    jobject_get_exists (update_connection_status api (some service) status) "onInternet" =
      some (jvalue.jstring
        (if api.connman_service_get_state service.state = CONNMAN_SERVICE_STATE_ONLINE
          then "yes" else "no")) := by
  have h1 : api.connman_service_get_state service.state = CONNMAN_SERVICE_STATE_ONLINE
      ∨ api.connman_service_get_state service.state = CONNMAN_SERVICE_STATE_READY :=
    Or.symm h
  simp only [update_connection_status, h1, if_true]
  rw [jobject_get_put_ne _ _ _ _ (by decide)]
  apply jobject_get_put_same
  split
  · simp [jis_object_put_wifi_members, jis_object_put_if_set, jis_object_put_dns_servers,
      jis_object_put, hobj]
  · simp [jis_object_put_if_set, jis_object_put_dns_servers, jis_object_put, hobj]

theorem technology_status_none (api : connman_api) (services : List connman_service_t)
    (h : api.connman_manager_get_connected_service services = none) :
    technology_status api services =
      jvalue.jobject [("state", jvalue.jstring "disconnected")] := by
  simp only [technology_status, h]
  rfl

theorem technology_status_some (api : connman_api) (services : List connman_service_t)
    (service : connman_service_t)
    (h : api.connman_manager_get_connected_service services = some service) :
    technology_status api services =
      update_connection_status api (some service) jobject_create := by
  simp only [technology_status, h]

theorem send_connection_status_wired (api : connman_api) (manager : connman_manager_t)
    (ms : List (String × jvalue)) :
    jobject_get_exists (send_connection_status api manager (jvalue.jobject ms)) "wired" =
      some (technology_status api manager.wired_services) := by
  simp only [send_connection_status]
  rw [jobject_get_put_ne _ _ _ _ (by decide), jobject_get_put_ne _ _ _ _ (by decide)]
  apply jobject_get_put_same
  simp only [jis_object_put]
  rfl

theorem send_connection_status_wifi (api : connman_api) (manager : connman_manager_t)
    (ms : List (String × jvalue)) :
    jobject_get_exists (send_connection_status api manager (jvalue.jobject ms)) "wifi" =
      some (technology_status api manager.wifi_services) := by
  simp only [send_connection_status]
  rw [jobject_get_put_ne _ _ _ _ (by decide)]
  apply jobject_get_put_same
  simp only [jis_object_put]
  rfl

/-- C1: in the document built by `send_connection_status`, the `wired` and
`wifi` sections are the mapped status of the technology's service list; for
any service list, the section has `state = "connected"` when the
representative service is ready or online, and is exactly
`{state:"disconnected"}` when there is no representative or the
representative is in any other state. -/
theorem send_connection_status_section_state (api : connman_api)
    (manager : connman_manager_t) (ms : List (String × jvalue)) :
    jobject_get_exists (send_connection_status api manager (jvalue.jobject ms)) "wired"
        = some (technology_status api manager.wired_services)
    ∧ jobject_get_exists (send_connection_status api manager (jvalue.jobject ms)) "wifi"
        = some (technology_status api manager.wifi_services)
    ∧ ∀ services : List connman_service_t,
        (∀ service, api.connman_manager_get_connected_service services = some service →
          state_connected api service →
          jobject_get_exists (technology_status api services) "state"
            = some (jvalue.jstring "connected"))
        ∧ ((∀ service, api.connman_manager_get_connected_service services = some service →
            ¬ state_connected api service) →
          technology_status api services
            = jvalue.jobject [("state", jvalue.jstring "disconnected")]) := by
  refine ⟨send_connection_status_wired api manager ms,
    send_connection_status_wifi api manager ms, fun services => ⟨?_, ?_⟩⟩
  · intro service hrep hstate
    rw [technology_status_some api services service hrep]
    exact update_connection_status_state api service jobject_create rfl hstate
  · intro hall
    cases hrep : api.connman_manager_get_connected_service services with
    | none => exact technology_status_none api services hrep
    | some service =>
      rw [technology_status_some api services service hrep,
        update_connection_status_disconnected api service _ (hall service hrep)]
      rfl

/-- C1, evaluated: the ready wifi service of `sample_manager` gives a
connected section, and an idle representative gives `{state:"disconnected"}`. -/
theorem send_connection_status_section_state_witness :
    jobject_get_exists (technology_status reference_api sample_manager.wifi_services) "state"
      = some (jvalue.jstring "connected")
    ∧ technology_status reference_api [{ wifi_ready with state := some "idle" }]
      = jvalue.jobject [("state", jvalue.jstring "disconnected")] :=
  ⟨((send_connection_status_section_state reference_api sample_manager []).2.2
      sample_manager.wifi_services).1 wifi_ready rfl (by decide),
   ((send_connection_status_section_state reference_api sample_manager []).2.2
      [{ wifi_ready with state := some "idle" }]).2 (fun service h => by cases h)⟩

/-- C2: the status object mapped from an online service has
`onInternet = "yes"`, the one mapped from a ready service has
`onInternet = "no"`. -/
theorem update_connection_status_onInternet_yes_no (api : connman_api)
    (service : connman_service_t) (ms : List (String × jvalue)) :
    (api.connman_service_get_state service.state = CONNMAN_SERVICE_STATE_ONLINE →
      jobject_get_exists (update_connection_status api (some service) (jvalue.jobject ms))
        "onInternet" = some (jvalue.jstring "yes"))
    ∧ (api.connman_service_get_state service.state = CONNMAN_SERVICE_STATE_READY →
      jobject_get_exists (update_connection_status api (some service) (jvalue.jobject ms))
        "onInternet" = some (jvalue.jstring "no")) := by
  constructor
  · intro h
    rw [update_connection_status_onInternet api service (jvalue.jobject ms) rfl (Or.inr h)]
    simp [h]
  · intro h
    rw [update_connection_status_onInternet api service (jvalue.jobject ms) rfl (Or.inl h)]
    simp [h]

/-- C2, evaluated on the online wired service and the ready wifi service. -/
theorem update_connection_status_onInternet_yes_no_witness :
    jobject_get_exists (update_connection_status reference_api (some wired_online)
        (jvalue.jobject [])) "onInternet" = some (jvalue.jstring "yes")
    ∧ jobject_get_exists (update_connection_status reference_api (some wifi_ready)
        (jvalue.jobject [])) "onInternet" = some (jvalue.jstring "no") :=
  ⟨(update_connection_status_onInternet_yes_no reference_api wired_online []).1 (by decide),
   (update_connection_status_onInternet_yes_no reference_api wifi_ready []).2 (by decide)⟩

/-! ## The decimal rendering of the loop counter is injective -/

theorem digitChar_value (m : Nat) (h : m < 10) : (Nat.digitChar m).toNat - 48 = m := by
  interval_cases m <;> rfl

theorem decimal_value_toDigitsCore :
    ∀ (fuel n : Nat) (ds : List Char), n < fuel →
      (Nat.toDigitsCore 10 fuel n ds).foldl (fun acc c => acc * 10 + (c.toNat - 48)) 0
        = ds.foldl (fun acc c => acc * 10 + (c.toNat - 48)) n := by
  intro fuel
  induction fuel with
  | zero => intro n ds h; omega
  | succ fuel ih =>
    intro n ds h
    have hd : (Nat.digitChar (n % 10)).toNat - 48 = n % 10 :=
      digitChar_value (n % 10) (Nat.mod_lt n (by decide))
    by_cases h0 : n / 10 = 0
    · have hn : n % 10 = n := by omega
      rw [hn] at hd
      simp only [Nat.toDigitsCore, h0, if_true, List.foldl_cons, hd, hn, Nat.zero_mul,
        Nat.zero_add]
    · have hlt : n / 10 < fuel := by omega
      have hn : n / 10 * 10 + n % 10 = n := by omega
      simp only [Nat.toDigitsCore, h0, if_false]
      rw [ih (n / 10) _ hlt]
      simp only [List.foldl_cons, hd, hn]

theorem toString_nat_injective (j k : Nat) (h : toString j = toString k) : j = k := by
  have hd : Nat.toDigits 10 j = Nat.toDigits 10 k := by
    have h1 : (Nat.toDigits 10 j).asString = (Nat.toDigits 10 k).asString := h
    have h2 := congrArg String.data h1
    simpa [List.asString] using h2
  have hj := decimal_value_toDigitsCore (j + 1) j [] (Nat.lt_succ_self j)
  have hk := decimal_value_toDigitsCore (k + 1) k [] (Nat.lt_succ_self k)
  simp only [List.foldl_nil] at hj hk
  rw [← hj, ← hk]
  exact congrArg _ hd

theorem dns_key_injective (j k : Nat) (h : "dns" ++ toString j = "dns" ++ toString k) :
    j = k := by
  apply toString_nat_injective
  have h2 := congrArg String.data h
  simp only [String.data_append, List.append_cancel_left_eq] at h2
  exact String.ext h2

/-! ## The name-server loop -/

theorem jobject_get_put_dns_servers_miss (dns : List String) (key : String) :
    ∀ (obj : jvalue) (i : Nat),
      (∀ m, m < dns.length → key ≠ "dns" ++ toString (i + m + 1)) →
      jobject_get_exists (put_dns_servers obj dns i) key = jobject_get_exists obj key := by
  induction dns with
  | nil => intro obj i _; rfl
  | cons d rest ih =>
    intro obj i h
    have h0 : key ≠ "dns" ++ toString (i + 1) := h 0 (by simp)
    have hrest : ∀ m, m < rest.length → key ≠ "dns" ++ toString (i + 1 + m + 1) := by
      intro m hm
      have := h (m + 1) (by simpa using hm)
      have e : i + (m + 1) + 1 = i + 1 + m + 1 := by omega
      rwa [e] at this
    simp only [put_dns_servers]
    rw [ih _ _ hrest, jobject_get_put_ne _ _ _ _ h0]

theorem jobject_get_put_dns_servers_hit (dns : List String) :
    ∀ (obj : jvalue) (i m : Nat) (d : String), jis_object obj = true → dns[m]? = some d →
      jobject_get_exists (put_dns_servers obj dns i) ("dns" ++ toString (i + m + 1))
        = some (jvalue.jstring d) := by
  induction dns with
  | nil => intro obj i m d _ h; simp at h
  | cons d0 rest ih =>
    intro obj i m d hobj h
    simp only [put_dns_servers]
    cases m with
    | zero =>
      simp only [List.getElem?_cons_zero, Option.some.injEq] at h
      subst h
      rw [jobject_get_put_dns_servers_miss]
      · exact jobject_get_put_same _ _ _ hobj
      · intro m _ e
        have := dns_key_injective _ _ e
        omega
    | succ m =>
      simp only [List.getElem?_cons_succ] at h
      have e : i + (m + 1) + 1 = i + 1 + m + 1 := by omega
      rw [e]
      exact ih _ (i + 1) m d (by rw [jis_object_put]; exact hobj) h

theorem mem_jobject_keys_put (obj : jvalue) (key other : String) (val : jvalue)
    (h : other ∈ jobject_keys (jobject_put obj key val)) :
    other ∈ jobject_keys obj ∨ other = key := by
  cases obj with
  | jobject ms =>
    simp only [jobject_put, jobject_keys, members_keys_put] at h ⊢
    split at h
    · exact Or.inl h
    · simpa using h
  | _ => exact Or.inl h

theorem mem_jobject_keys_put_if_set (obj : jvalue) (key other : String) (text : Option String)
    (h : other ∈ jobject_keys (put_if_set obj key text)) :
    other ∈ jobject_keys obj ∨ other = key := by
  cases text with
  | none => exact Or.inl h
  | some t => exact mem_jobject_keys_put obj key other _ h

theorem mem_jobject_keys_put_dns_servers (dns : List String) (other : String) :
    ∀ (obj : jvalue) (i : Nat), other ∈ jobject_keys (put_dns_servers obj dns i) →
      other ∈ jobject_keys obj ∨ ∃ m, m < dns.length ∧ other = "dns" ++ toString (i + m + 1) := by
  induction dns with
  | nil => intro obj i h; exact Or.inl h
  | cons d rest ih =>
    intro obj i h
    simp only [put_dns_servers] at h
    rcases ih _ _ h with h1 | ⟨m, hm, e⟩
    · rcases mem_jobject_keys_put _ _ _ _ h1 with h2 | h2
      · exact Or.inl h2
      · exact Or.inr ⟨0, by simp, h2⟩
    · refine Or.inr ⟨m + 1, by simpa using hm, ?_⟩
      have e2 : i + (m + 1) + 1 = i + 1 + m + 1 := by omega
      rw [e2]; exact e

theorem not_dns_prefixed (key : String) (h : key.data.take 3 ≠ ['d', 'n', 's']) :
    ¬ dns_prefixed key :=
  fun hp => h (dns_prefixed_data key hp)

theorem mem_jobject_keys_update_connection_status (api : connman_api)
    (service : connman_service_t) (key : String)
    (h : key ∈ jobject_keys (update_connection_status api (some service) jobject_create))
    (hp : dns_prefixed key) :
    ∃ m, m < (api.connman_service_get_ipinfo service).ipinfo.dns.length
      ∧ key = "dns" ++ toString (m + 1) := by
  have hno : ∀ lit : String, lit.data.take 3 ≠ ['d', 'n', 's'] → key ≠ lit :=
    fun lit hl e => not_dns_prefixed lit hl (e ▸ hp)
  simp only [update_connection_status] at h
  split at h
  · rcases mem_jobject_keys_put _ _ _ _ h with h | h
    swap
    · exact absurd h (hno _ (by decide))
    rcases mem_jobject_keys_put _ _ _ _ h with h | h
    swap
    · exact absurd h (hno _ (by decide))
    have hw : key ∈ jobject_keys (put_if_set (put_dns_servers
        (put_if_set (put_if_set (put_if_set (put_if_set
          (jobject_put jobject_create "state" (jvalue.jstring "connected"))
          "interfaceName" (api.connman_service_get_ipinfo service).ipinfo.iface)
          "ipAddress" (api.connman_service_get_ipinfo service).ipinfo.ipv4.address)
          "netmask" (api.connman_service_get_ipinfo service).ipinfo.ipv4.netmask)
          "gateway" (api.connman_service_get_ipinfo service).ipinfo.ipv4.gateway)
        (api.connman_service_get_ipinfo service).ipinfo.dns 0)
        "method" (api.connman_service_get_ipinfo service).ipinfo.ipv4.method) := by
      split at h
      · simp only [put_wifi_members] at h
        rcases mem_jobject_keys_put _ _ _ _ h with h | h
        swap
        · exact absurd h (hno _ (by decide))
        rcases mem_jobject_keys_put _ _ _ _ h with h | h
        swap
        · exact absurd h (hno _ (by decide))
        rcases mem_jobject_keys_put_if_set _ _ _ _ h with h | h
        swap
        · exact absurd h (hno _ (by decide))
        exact h
      · exact h
    rcases mem_jobject_keys_put_if_set _ _ _ _ hw with h | h
    swap
    · exact absurd h (hno _ (by decide))
    rcases mem_jobject_keys_put_dns_servers _ _ _ _ h with h | ⟨m, hm, e⟩
    swap
    · exact ⟨m, hm, by simpa using e⟩
    rcases mem_jobject_keys_put_if_set _ _ _ _ h with h | h
    swap
    · exact absurd h (hno _ (by decide))
    rcases mem_jobject_keys_put_if_set _ _ _ _ h with h | h
    swap
    · exact absurd h (hno _ (by decide))
    rcases mem_jobject_keys_put_if_set _ _ _ _ h with h | h
    swap
    · exact absurd h (hno _ (by decide))
    rcases mem_jobject_keys_put_if_set _ _ _ _ h with h | h
    swap
    · exact absurd h (hno _ (by decide))
    rcases mem_jobject_keys_put _ _ _ _ h with h | h
    · simp [jobject_create, jobject_keys] at h
    · exact absurd h (hno _ (by decide))
  · rcases mem_jobject_keys_put _ _ _ _ h with h | h
    · simp [jobject_create, jobject_keys] at h
    · exact absurd h (hno _ (by decide))

theorem update_connection_status_dns_value (api : connman_api)
    (service : connman_service_t) (h : state_connected api service) (m : Nat) (d : String)
    (hd : (api.connman_service_get_ipinfo service).ipinfo.dns[m]? = some d) :
    jobject_get_exists (update_connection_status api (some service) jobject_create)
      ("dns" ++ toString (m + 1)) = some (jvalue.jstring d) := by
  have h1 : api.connman_service_get_state service.state = CONNMAN_SERVICE_STATE_ONLINE
      ∨ api.connman_service_get_state service.state = CONNMAN_SERVICE_STATE_READY :=
    Or.symm h
  have hne : ∀ lit : String, lit.data.take 3 ≠ ['d', 'n', 's'] →
      "dns" ++ toString (m + 1) ≠ lit :=
    fun lit hl e => not_dns_prefixed lit hl ⟨toString (m + 1), e.symm⟩
  simp only [update_connection_status, h1, if_true]
  rw [jobject_get_put_ne _ _ _ _ (hne _ (by decide)),
    jobject_get_put_ne _ _ _ _ (hne _ (by decide))]
  have hw : ∀ obj : jvalue,
      jobject_get_exists
        (if api.connman_service_type_wifi (api.connman_service_get_ipinfo service) = true
          then put_wifi_members obj (api.connman_service_get_ipinfo service) else obj)
        ("dns" ++ toString (m + 1))
        = jobject_get_exists obj ("dns" ++ toString (m + 1)) := by
    intro obj
    split
    · simp only [put_wifi_members]
      rw [jobject_get_put_ne _ _ _ _ (hne _ (by decide)),
        jobject_get_put_ne _ _ _ _ (hne _ (by decide)),
        jobject_get_put_if_set_ne _ _ _ _ (hne _ (by decide))]
    · rfl
  rw [hw, jobject_get_put_if_set_ne _ _ _ _ (hne _ (by decide))]
  have e : m + 1 = 0 + m + 1 := by omega
  rw [e]
  apply jobject_get_put_dns_servers_hit _ _ _ _ _ _ hd
  simp only [jis_object_put_if_set, jis_object_put]
  rfl

/-- C3: for a connected service whose name-server list is `dns`,
`update_connection_status` stores the k-th server (k = 1..N, in list order)
under the key `dns` followed by the decimal rendering of k; these keys are
pairwise distinct, and every key of the result that starts with `dns` is one
of them. -/
theorem update_connection_status_dns_keys (api : connman_api)
    (service : connman_service_t) (h : state_connected api service) :
    (∀ (k : Nat) (d : String), 1 ≤ k →
      (api.connman_service_get_ipinfo service).ipinfo.dns[k - 1]? = some d →
      jobject_get_exists (update_connection_status api (some service) jobject_create)
        ("dns" ++ toString k) = some (jvalue.jstring d))
    ∧ (∀ j k : Nat, j ≠ k → "dns" ++ toString j ≠ "dns" ++ toString k)
    ∧ (∀ key, key ∈ jobject_keys (update_connection_status api (some service) jobject_create) →
        dns_prefixed key →
        ∃ k, 1 ≤ k ∧ k ≤ (api.connman_service_get_ipinfo service).ipinfo.dns.length
          ∧ key = "dns" ++ toString k) := by
  refine ⟨?_, ?_, ?_⟩
  · intro k d hk hd
    have e : k = (k - 1) + 1 := by omega
    rw [e]
    exact update_connection_status_dns_value api service h (k - 1) d hd
  · intro j k hjk e
    exact hjk (dns_key_injective j k e)
  · intro key hkey hp
    obtain ⟨m, hm, e⟩ := mem_jobject_keys_update_connection_status api service key hkey hp
    exact ⟨m + 1, by omega, by omega, e⟩

/-- C3, evaluated: the list `["8.8.8.8","1.1.1.1"]` of `wired_online` maps to
`dns1 = "8.8.8.8"` and `dns2 = "1.1.1.1"`. -/
theorem update_connection_status_dns_keys_witness :
    state_connected reference_api wired_online
    ∧ (reference_api.connman_service_get_ipinfo wired_online).ipinfo.dns
        = ["8.8.8.8", "1.1.1.1"]
    ∧ jobject_get_exists (update_connection_status reference_api (some wired_online)
        jobject_create) "dns1" = some (jvalue.jstring "8.8.8.8")
    ∧ jobject_get_exists (update_connection_status reference_api (some wired_online)
        jobject_create) "dns2" = some (jvalue.jstring "1.1.1.1") :=
  ⟨by decide, rfl,
   (update_connection_status_dns_keys reference_api wired_online (by decide)).1 1 "8.8.8.8"
     (by decide) rfl,
   (update_connection_status_dns_keys reference_api wired_online (by decide)).1 2 "1.1.1.1"
     (by decide) rfl⟩

theorem handle_get_status_command_payload (api : connman_api) (manager : connman_manager_t)
    (subscription : Option Bool) :
    ∃ doc, (handle_get_status_command api (some manager) subscription true).effects
        = [effect.reply (ls_reply.LSMessageReply doc)]
      ∧ jobject_get_exists doc "wired" = some (technology_status api manager.wired_services)
      ∧ jobject_get_exists doc "wifi" = some (technology_status api manager.wifi_services) := by
  cases subscription with
  | none =>
    refine ⟨_, rfl, ?_, ?_⟩
    · rw [jobject_get_put_ne _ _ _ _ (by decide)]
      exact send_connection_status_wired api manager []
    · rw [jobject_get_put_ne _ _ _ _ (by decide)]
      exact send_connection_status_wifi api manager []
  | some subscribed =>
    refine ⟨_, rfl, ?_, ?_⟩
    · rw [jobject_get_put_ne _ _ _ _ (by decide)]
      exact send_connection_status_wired api manager _
    · rw [jobject_get_put_ne _ _ _ _ (by decide)]
      exact send_connection_status_wifi api manager _

/-- C4 as stated fails: in the scenario registry the wired section returned
by getstatus also holds the key `networkConfidenceLevel`, so its keys are not
exactly the eight claimed ones. -/
theorem getstatus_scenario_wired_keys_counterexample :
    ∃ doc wired,
      (handle_get_status_command reference_api (some scenario_manager) none true).effects
        = [effect.reply (ls_reply.LSMessageReply doc)]
      ∧ jobject_get_exists doc "wired" = some wired
      ∧ jobject_keys wired = scenario_claimed_keys ++ ["networkConfidenceLevel"]
      ∧ ¬ (∀ key, key ∈ jobject_keys wired ↔ key ∈ scenario_claimed_keys) := by
  refine ⟨_, _, rfl, rfl, by decide, ?_⟩
  intro hall
  have hmem : "networkConfidenceLevel" ∈ scenario_claimed_keys :=
    (hall "networkConfidenceLevel").1 (by decide)
  revert hmem
  decide

/-- C4, amended: with one wired service that is online, has interface name
`iface`, the DHCP lease of the scenario and the name server 8.8.8.8, and with
no wifi service, getstatus replies a document whose wired section is exactly
state, interfaceName, ipAddress, netmask, gateway, dns1, method, onInternet
and networkConfidenceLevel with the scenario values, and whose wifi section is
`{state:"disconnected"}`. -/
theorem getstatus_scenario_sections (api : connman_api) (manager : connman_manager_t)
    (service : connman_service_t) (iface : String) (subscription : Option Bool)
    (hwired : manager.wired_services = [service]) (hwifi : manager.wifi_services = [])
    (hrep : api.connman_manager_get_connected_service [service] = some service)
    (hnone : api.connman_manager_get_connected_service [] = none)
    (hstate : api.connman_service_get_state service.state = CONNMAN_SERVICE_STATE_ONLINE)
    (htype : api.connman_service_type_wifi (api.connman_service_get_ipinfo service) = false)
    (hip : (api.connman_service_get_ipinfo service).ipinfo =
      { iface := some iface
        ipv4 :=
          { method := some "dhcp"
            address := some "192.168.1.5"
            netmask := some "255.255.255.0"
            gateway := some "192.168.1.1" }
        dns := ["8.8.8.8"] }) :
    ∃ doc, (handle_get_status_command api (some manager) subscription true).effects
        = [effect.reply (ls_reply.LSMessageReply doc)]
      ∧ jobject_get_exists doc "wired" = some (jvalue.jobject
          [("state", jvalue.jstring "connected"),
           ("interfaceName", jvalue.jstring iface),
           ("ipAddress", jvalue.jstring "192.168.1.5"),
           ("netmask", jvalue.jstring "255.255.255.0"),
           ("gateway", jvalue.jstring "192.168.1.1"),
           ("dns1", jvalue.jstring "8.8.8.8"),
           ("method", jvalue.jstring "dhcp"),
           ("onInternet", jvalue.jstring "yes"),
           ("networkConfidenceLevel", jvalue.jstring "excellent")])
      ∧ jobject_get_exists doc "wifi"
          = some (jvalue.jobject [("state", jvalue.jstring "disconnected")]) := by
  obtain ⟨doc, hdoc, hw, hf⟩ := handle_get_status_command_payload api manager subscription
  refine ⟨doc, hdoc, ?_, ?_⟩
  · rw [hw, hwired, technology_status_some api _ service hrep]
    have hkey : "dns" ++ toString (0 + 1) = "dns1" := by decide
    simp [update_connection_status, hstate, htype, hip, put_if_set, put_dns_servers,
      jobject_put, jobject_create, members_put, hkey]
  · rw [hf, hwifi, technology_status_none api _ hnone]

/-- C4 amended, evaluated on the scenario registry. -/
theorem getstatus_scenario_sections_witness :
    ∃ doc, (handle_get_status_command reference_api (some scenario_manager) none true).effects
        = [effect.reply (ls_reply.LSMessageReply doc)]
      ∧ jobject_get_exists doc "wired" = some (jvalue.jobject
          [("state", jvalue.jstring "connected"),
           ("interfaceName", jvalue.jstring "eth0"),
           ("ipAddress", jvalue.jstring "192.168.1.5"),
           ("netmask", jvalue.jstring "255.255.255.0"),
           ("gateway", jvalue.jstring "192.168.1.1"),
           ("dns1", jvalue.jstring "8.8.8.8"),
           ("method", jvalue.jstring "dhcp"),
           ("onInternet", jvalue.jstring "yes"),
           ("networkConfidenceLevel", jvalue.jstring "excellent")])
      ∧ jobject_get_exists doc "wifi"
          = some (jvalue.jobject [("state", jvalue.jstring "disconnected")]) :=
  getstatus_scenario_sections reference_api scenario_manager scenario_service "eth0" none
    rfl rfl rfl rfl (by decide) (by decide) rfl

/-! ## setstate -/

theorem replies_append (xs ys : List effect) :
    replies (xs ++ ys) = replies xs ++ replies ys := by
  induction xs with
  | nil => rfl
  | cons x rest ih => cases x <;> simp [replies, ih]

theorem mutator_calls_append (xs ys : List effect) :
    mutator_calls (xs ++ ys) = mutator_calls xs ++ mutator_calls ys := by
  induction xs with
  | nil => rfl
  | cons x rest ih => cases x <;> simp [mutator_calls, ih]

theorem mutator_calls_replies (rs : List ls_reply) :
    mutator_calls (rs.map effect.reply) = [] := by
  induction rs with
  | nil => rfl
  | cons r rest ih => simp [mutator_calls, ih]

theorem replies_map_reply (rs : List ls_reply) : replies (rs.map effect.reply) = rs := by
  induction rs with
  | nil => rfl
  | cons r rest ih => simp [replies, ih]

theorem replies_map_mutate (cs : List mutator_call) : replies (cs.map effect.mutate) = [] := by
  induction cs with
  | nil => rfl
  | cons c rest ih => simp [replies, ih]

theorem mutator_calls_map_mutate (cs : List mutator_call) :
    mutator_calls (cs.map effect.mutate) = cs := by
  induction cs with
  | nil => rfl
  | cons c rest ih => simp [mutator_calls, ih]

theorem set_state_wifi_block_valid (api : connman_api) (manager : Option connman_manager_t)
    (parsedObj : jvalue)
    (h : ∀ val, jobject_get_exists parsedObj "wifi" = some val →
      val = jvalue.jstring "enabled" ∨ val = jvalue.jstring "disabled") :
    set_state_wifi_block api manager parsedObj =
      some ((call_on_mismatch (requested_state parsedObj "wifi")
          (is_wifi_powered api manager) mutator_call.set_wifi_state).map effect.mutate,
        (jobject_get_exists parsedObj "wifi").isSome) := by
  cases hget : jobject_get_exists parsedObj "wifi" with
  | none => simp [set_state_wifi_block, hget, requested_state, call_on_mismatch]
  | some val =>
    rcases h val hget with rfl | rfl <;> cases hp : is_wifi_powered api manager <;>
      simp [set_state_wifi_block, hget, requested_state, call_on_mismatch, parse_enable,
        jstring_equal2, hp]

theorem set_state_wired_block_valid (api : connman_api) (manager : Option connman_manager_t)
    (parsedObj : jvalue)
    (h : ∀ val, jobject_get_exists parsedObj "wired" = some val →
      val = jvalue.jstring "enabled" ∨ val = jvalue.jstring "disabled") :
    set_state_wired_block api manager parsedObj =
      some ((call_on_mismatch (requested_state parsedObj "wired")
          (is_ethernet_powered api manager) mutator_call.set_ethernet_state).map effect.mutate,
        (jobject_get_exists parsedObj "wired").isSome) := by
  cases hget : jobject_get_exists parsedObj "wired" with
  | none => simp [set_state_wired_block, hget, requested_state, call_on_mismatch]
  | some val =>
    rcases h val hget with rfl | rfl <;> cases hp : is_ethernet_powered api manager <;>
      simp [set_state_wired_block, hget, requested_state, call_on_mismatch, parse_enable,
        jstring_equal2, hp]

theorem set_state_offline_block_valid (api : connman_api) (manager : Option connman_manager_t)
    (parsedObj : jvalue)
    (h : ∀ val, jobject_get_exists parsedObj "offlineMode" = some val →
      val = jvalue.jstring "enabled" ∨ val = jvalue.jstring "disabled") :
    set_state_offline_block api manager parsedObj =
      some ((call_on_mismatch (requested_state parsedObj "offlineMode")
          (!api.connman_manager_is_manager_available manager)
          mutator_call.set_offline_mode).map effect.mutate,
        (jobject_get_exists parsedObj "offlineMode").isSome) := by
  cases hget : jobject_get_exists parsedObj "offlineMode" with
  | none => simp [set_state_offline_block, hget, requested_state, call_on_mismatch]
  | some val =>
    rcases h val hget with rfl | rfl <;>
      cases hp : api.connman_manager_is_manager_available manager <;>
      simp [set_state_offline_block, hget, requested_state, call_on_mismatch, parse_enable,
        jstring_equal2, hp]

theorem send_connection_status_offlineMode (api : connman_api) (manager : connman_manager_t)
    (ms : List (String × jvalue)) :
    jobject_get_exists (send_connection_status api manager (jvalue.jobject ms)) "offlineMode" =
      some (jvalue.jstring
        (if (!api.connman_manager_is_manager_available (some manager)) = true then "enabled"
         else "disabled")) := by
  simp only [send_connection_status]
  rw [jobject_get_put_ne _ _ _ _ (by decide), jobject_get_put_ne _ _ _ _ (by decide),
    jobject_get_put_ne _ _ _ _ (by decide)]
  apply jobject_get_put_same
  simp only [jis_object_put]
  rfl

/-- C5 as stated fails: the request `{}` has no key with a bad value, yet
the handler answers InvalidParams, not success. -/
theorem handle_set_state_command_empty_counterexample :
    set_state_values_valid (jvalue.jobject [])
    ∧ (handle_set_state_command reference_api (some sample_manager) true
        (jvalue.jobject [])).effects
      = [effect.reply ls_reply.LSMessageReplyErrorInvalidParams]
    ∧ replies (handle_set_state_command reference_api (some sample_manager) true
        (jvalue.jobject [])).effects ≠ [ls_reply.LSMessageReplySuccess] := by
  refine ⟨?_, rfl, ?_⟩
  · intro key _ val h
    simp [jobject_get_exists, members_get] at h
  · intro h
    have h2 : [ls_reply.LSMessageReplyErrorInvalidParams] = [ls_reply.LSMessageReplySuccess] := h
    cases h2

/-- C5, amended: for a parsed `setstate` request that holds at least one of
`wifi`, `wired`, `offlineMode`, each present one valued `"enabled"` or
`"disabled"`, and for every registry state, the handler returns with the one
reply success, and its mutator calls are, in this order, the wifi power switch
iff the requested wifi state differs from the wifi powered flag, the ethernet
power switch iff the requested wired state differs from the ethernet powered
flag, and the offline switch iff the requested offline mode differs from the
offline flag, which is the flag getstatus reports as `offlineMode`.  So
`{wifi:"enabled"}` with wifi powered on makes no mutator call and is answered
with success. -/
theorem handle_set_state_command_idempotent (api : connman_api)
    (manager : connman_manager_t) (parsedObj : jvalue)
    (hvalid : set_state_values_valid parsedObj)
    (hgiven : ∃ key, key ∈ ["wifi", "wired", "offlineMode"]
      ∧ (jobject_get_exists parsedObj key).isSome = true) :
    (handle_set_state_command api (some manager) true parsedObj).ret = some true
    ∧ replies (handle_set_state_command api (some manager) true parsedObj).effects
      = [ls_reply.LSMessageReplySuccess]
    ∧ mutator_calls (handle_set_state_command api (some manager) true parsedObj).effects
      = call_on_mismatch (requested_state parsedObj "wifi")
          (is_wifi_powered api (some manager)) mutator_call.set_wifi_state
        ++ call_on_mismatch (requested_state parsedObj "wired")
          (is_ethernet_powered api (some manager)) mutator_call.set_ethernet_state
        ++ call_on_mismatch (requested_state parsedObj "offlineMode")
          (!api.connman_manager_is_manager_available (some manager))
          mutator_call.set_offline_mode
    ∧ (∀ ms, jobject_get_exists (send_connection_status api manager (jvalue.jobject ms))
        "offlineMode" = some (jvalue.jstring
          (if (!api.connman_manager_is_manager_available (some manager)) = true
            then "enabled" else "disabled")))
    ∧ (parsedObj = jvalue.jobject [("wifi", jvalue.jstring "enabled")] →
        is_wifi_powered api (some manager) = true →
        (handle_set_state_command api (some manager) true parsedObj).effects
          = [effect.reply ls_reply.LSMessageReplySuccess]) := by
  have hwifi := set_state_wifi_block_valid api (some manager) parsedObj
    (hvalid "wifi" (by decide))
  have hwired := set_state_wired_block_valid api (some manager) parsedObj
    (hvalid "wired" (by decide))
  have hoff := set_state_offline_block_valid api (some manager) parsedObj
    (hvalid "offlineMode" (by decide))
  have hnull : jis_null parsedObj = false := by
    obtain ⟨key, _, hk⟩ := hgiven
    cases parsedObj with
    | jnull => simp [jobject_get_exists] at hk
    | _ => rfl
  have hany : ((jobject_get_exists parsedObj "wifi").isSome
      || (jobject_get_exists parsedObj "wired").isSome
      || (jobject_get_exists parsedObj "offlineMode").isSome) = true := by
    obtain ⟨key, hmem, hk⟩ := hgiven
    simp only [List.mem_cons, List.mem_singleton, List.not_mem_nil, or_false] at hmem
    rcases hmem with rfl | rfl | rfl <;> simp [hk]
  have heff : (handle_set_state_command api (some manager) true parsedObj)
      = { ret := some true
          effects :=
            (call_on_mismatch (requested_state parsedObj "wifi")
              (is_wifi_powered api (some manager)) mutator_call.set_wifi_state).map
                effect.mutate
            ++ (call_on_mismatch (requested_state parsedObj "wired")
              (is_ethernet_powered api (some manager)) mutator_call.set_ethernet_state).map
                effect.mutate
            ++ (call_on_mismatch (requested_state parsedObj "offlineMode")
              (!api.connman_manager_is_manager_available (some manager))
              mutator_call.set_offline_mode).map effect.mutate
            ++ [effect.reply ls_reply.LSMessageReplySuccess] } := by
    simp only [handle_set_state_command, hnull, hwifi, hwired, hoff, hany]
    simp
  refine ⟨by rw [heff], ?_, ?_, send_connection_status_offlineMode api manager, ?_⟩
  · rw [heff]
    simp [replies_append, replies_map_mutate, replies]
  · rw [heff]
    simp [mutator_calls_append, mutator_calls_map_mutate, mutator_calls]
  · intro hreq hp
    rw [heff, hreq, hp]
    rfl

/-- C5 amended, evaluated: `{wifi:"enabled"}` while wifi is powered on calls
no mutator and is answered with success. -/
theorem handle_set_state_command_idempotent_witness :
    is_wifi_powered wifi_on_api (some sample_manager) = true
    ∧ (handle_set_state_command wifi_on_api (some sample_manager) true
        (jvalue.jobject [("wifi", jvalue.jstring "enabled")])).effects
      = [effect.reply ls_reply.LSMessageReplySuccess] :=
  ⟨rfl,
   (handle_set_state_command_idempotent wifi_on_api sample_manager
      (jvalue.jobject [("wifi", jvalue.jstring "enabled")])
      (by
        intro key _ val hv
        simp only [jobject_get_exists, members_get] at hv
        split at hv
        · left; exact (Option.some.inj hv).symm
        · cases hv)
      ⟨"wifi", by decide, rfl⟩).2.2.2.2 rfl rfl⟩

/-- C6, the failing run: `{wifi:"enabled", wired:"bogus"}` with wifi powered
off is answered with InvalidParams after the wifi power switch was called. -/
theorem handle_set_state_command_invalid_after_mutation :
    is_wifi_powered reference_api (some sample_manager) = false
    ∧ (handle_set_state_command reference_api (some sample_manager) true
        (jvalue.jobject [("wifi", jvalue.jstring "enabled"),
          ("wired", jvalue.jstring "bogus")])).effects
      = [effect.mutate (mutator_call.set_wifi_state true),
         effect.reply ls_reply.LSMessageReplyErrorInvalidParams] :=
  ⟨rfl, rfl⟩

/-- C7, the failing run: `{wifi:"enabled"}` with wifi powered off and a power
switch that returns FALSE is answered with success. -/
theorem handle_set_state_command_success_after_failed_mutator :
    set_wifi_state reference_api (some sample_manager) true = false
    ∧ (handle_set_state_command reference_api (some sample_manager) true
        (jvalue.jobject [("wifi", jvalue.jstring "enabled")])).effects
      = [effect.mutate (mutator_call.set_wifi_state true),
         effect.reply ls_reply.LSMessageReplySuccess] :=
  ⟨rfl, rfl⟩

/-! ## setipv4 and setdns -/

/-- C8: a `setipv4` request that reaches field validation (status check
passed, schema created, payload parsed) and holds none of `method`,
`address`, `netmask`, `gateway`, `ssid` is answered with InvalidParams, and no
mutator is called. -/
theorem handle_set_ipv4_command_no_field (api : connman_api)
    (manager : Option connman_manager_t) (parsedObj : jvalue)
    (hcheck : (api.connman_status_check manager).1 = true)
    (hparsed : jis_null parsedObj = false)
    (hnone : ∀ key, key ∈ ["method", "address", "netmask", "gateway", "ssid"] →
      jobject_get_exists parsedObj key = none) :
    (handle_set_ipv4_command api manager true parsedObj).ret = some true
    ∧ (handle_set_ipv4_command api manager true parsedObj).effects
      = (api.connman_status_check manager).2.map effect.reply
        ++ [effect.reply ls_reply.LSMessageReplyErrorInvalidParams]
    ∧ mutator_calls (handle_set_ipv4_command api manager true parsedObj).effects = [] := by
  have h1 := hnone "method" (by decide)
  have h2 := hnone "address" (by decide)
  have h3 := hnone "netmask" (by decide)
  have h4 := hnone "gateway" (by decide)
  have h5 := hnone "ssid" (by decide)
  have heff : handle_set_ipv4_command api manager true parsedObj
      = { ret := some true
          effects := (api.connman_status_check manager).2.map effect.reply
            ++ [effect.reply ls_reply.LSMessageReplyErrorInvalidParams] } := by
    simp [handle_set_ipv4_command, hcheck, hparsed, h1, h2, h3, h4, h5]
  refine ⟨by rw [heff], by rw [heff], ?_⟩
  rw [heff]
  simp [mutator_calls_append, mutator_calls_replies, mutator_calls]

/-- C8, evaluated on the request `{}`. -/
theorem handle_set_ipv4_command_no_field_witness :
    (handle_set_ipv4_command reference_api (some sample_manager) true
        (jvalue.jobject [])).effects
      = [effect.reply ls_reply.LSMessageReplyErrorInvalidParams] :=
  (handle_set_ipv4_command_no_field reference_api (some sample_manager) (jvalue.jobject [])
    rfl rfl (fun _ _ => rfl)).2.1

/-- C9, the failing run: `{address:"10.0.0.2"}` has no `method`, yet the
handler calls the IPv4 mutator on the wired service, with a NULL method, and
answers with success. -/
theorem handle_set_ipv4_command_without_method :
    jobject_get_exists (jvalue.jobject [("address", jvalue.jstring "10.0.0.2")]) "method"
      = none
    ∧ (handle_set_ipv4_command reference_api (some sample_manager) true
        (jvalue.jobject [("address", jvalue.jstring "10.0.0.2")])).effects
      = [effect.mutate (mutator_call.connman_service_set_ipv4 wired_online
            { method := none, address := some "10.0.0.2", netmask := none, gateway := none }),
         effect.reply ls_reply.LSMessageReplySuccess] :=
  ⟨rfl, rfl⟩

theorem get_connman_service_none (manager : connman_manager_t) (ssid : Option String)
    (h : selects_no_service manager ssid) : get_connman_service manager ssid = none := by
  rcases h with ⟨text, rfl, hall⟩ | ⟨rfl, hw⟩
  · simp only [get_connman_service, List.find?_eq_none]
    intro service hmem
    have := hall service hmem
    cases hn : service.name with
    | none => simp
    | some name =>
      rw [hn] at this
      simpa using fun e => this (congrArg some e)
  · simp [get_connman_service, hw]

/-- With a selector that matches no service: a validated `setipv4` request
is answered with "Network not found" and calls no mutator; a validated
`setdns` request calls no mutator whatever its `dns` array is, is answered
with "No connected network" when every store of the loop is inside the
vector, and returns when moreover the vector holds a NULL slot. -/
theorem handle_set_command_no_target (api : connman_api) (manager : connman_manager_t)
    (parsedObj : jvalue)
    (hcheck : (api.connman_status_check (some manager)).1 = true)
    (hparsed : jis_null parsedObj = false)
    (hsel : selects_no_service manager (request_ssid parsedObj)) :
    ((∃ key, key ∈ ["method", "address", "netmask", "gateway", "ssid"]
        ∧ (jobject_get_exists parsedObj key).isSome = true) →
      (handle_set_ipv4_command api (some manager) true parsedObj).ret = some true
      ∧ (handle_set_ipv4_command api (some manager) true parsedObj).effects
        = (api.connman_status_check (some manager)).2.map effect.reply
          ++ [effect.reply (ls_reply.LSMessageReplyCustomError "Network not found")]
      ∧ mutator_calls (handle_set_ipv4_command api (some manager) true parsedObj).effects
        = [])
    ∧ (∀ dnsObj, jobject_get_exists parsedObj "dns" = some dnsObj →
      mutator_calls (handle_set_dns_command api (some manager) true parsedObj).effects = []
      ∧ (dns_stores_overflow (build_dns_vector dnsObj) = false →
        (handle_set_dns_command api (some manager) true parsedObj).effects
          = (api.connman_status_check (some manager)).2.map effect.reply
            ++ [effect.reply (ls_reply.LSMessageReplyCustomError "No connected network")])
      ∧ (dns_stores_overflow (build_dns_vector dnsObj) = false →
        dns_read_overflows (build_dns_vector dnsObj) = false →
        (handle_set_dns_command api (some manager) true parsedObj).ret = some true)) := by
  have hget := get_connman_service_none manager _ hsel
  simp only [request_ssid] at hget
  constructor
  · intro hgiven
    have hinv : ((jobject_get_exists parsedObj "method").isNone
        && (jobject_get_exists parsedObj "address").isNone
        && (jobject_get_exists parsedObj "netmask").isNone
        && (jobject_get_exists parsedObj "gateway").isNone
        && (jobject_get_exists parsedObj "ssid").isNone) = false := by
      obtain ⟨key, hmem, hk⟩ := hgiven
      simp only [List.mem_cons, List.mem_singleton, List.not_mem_nil, or_false] at hmem
      rw [Option.isSome_iff_exists] at hk
      obtain ⟨v, hv⟩ := hk
      rcases hmem with rfl | rfl | rfl | rfl | rfl <;> simp [hv]
    have heff : handle_set_ipv4_command api (some manager) true parsedObj
        = { ret := some true
            effects := (api.connman_status_check (some manager)).2.map effect.reply
              ++ [effect.reply (ls_reply.LSMessageReplyCustomError "Network not found")] } := by
      simp only [handle_set_ipv4_command, hcheck, hparsed, hinv, hget]
      simp
    refine ⟨by rw [heff], by rw [heff], ?_⟩
    rw [heff]
    simp [mutator_calls_append, mutator_calls_replies, mutator_calls]
  · intro dnsObj hd
    by_cases hstore : dns_stores_overflow (build_dns_vector dnsObj) = true
    · have heff : handle_set_dns_command api (some manager) true parsedObj
          = { ret := none
              effects := (api.connman_status_check (some manager)).2.map effect.reply } := by
        simp [handle_set_dns_command, hcheck, hparsed, hd, hstore]
      refine ⟨?_, fun h => ?_, fun h => ?_⟩
      · rw [heff]
        simp [mutator_calls_replies]
      · rw [hstore] at h
        cases h
      · rw [hstore] at h
        cases h
    · have hstore2 : dns_stores_overflow (build_dns_vector dnsObj) = false := by
        simpa using hstore
      have heff : (handle_set_dns_command api (some manager) true parsedObj).effects
          = (api.connman_status_check (some manager)).2.map effect.reply
            ++ [effect.reply
              (ls_reply.LSMessageReplyCustomError "No connected network")] := by
        simp only [handle_set_dns_command, hcheck, hparsed, hd, hget, hstore2]
        by_cases hread : dns_read_overflows (build_dns_vector dnsObj) = true
        · simp [hread]
        · simp [hread]
      refine ⟨?_, fun _ => heff, fun _ hread => ?_⟩
      · rw [heff]
        simp [mutator_calls_append, mutator_calls_replies, mutator_calls]
      · simp [handle_set_dns_command, hcheck, hparsed, hd, hget, hstore2, hread]

/-- The lemma `handle_set_command_no_target`, evaluated: no wifi service of
`sample_manager` is named `cafe`, so `setipv4` and `setdns` requests for it
are answered with the not-found errors. -/
theorem handle_set_command_no_target_witness :
    (handle_set_ipv4_command reference_api (some sample_manager) true
        (jvalue.jobject [("method", jvalue.jstring "dhcp"),
          ("dns", jvalue.jarray [jvalue.jstring "8.8.8.8"]),
          ("ssid", jvalue.jstring "cafe")])).effects
      = [effect.reply (ls_reply.LSMessageReplyCustomError "Network not found")]
    ∧ (handle_set_dns_command reference_api (some sample_manager) true
        (jvalue.jobject [("method", jvalue.jstring "dhcp"),
          ("dns", jvalue.jarray [jvalue.jstring "8.8.8.8"]),
          ("ssid", jvalue.jstring "cafe")])).effects
      = [effect.reply (ls_reply.LSMessageReplyCustomError "No connected network")] :=
  have h := handle_set_command_no_target reference_api sample_manager
    (jvalue.jobject [("method", jvalue.jstring "dhcp"),
      ("dns", jvalue.jarray [jvalue.jstring "8.8.8.8"]),
      ("ssid", jvalue.jstring "cafe")])
    rfl rfl
    (Or.inl ⟨"cafe", rfl, by
      intro service hmem
      simp only [sample_manager, List.mem_singleton] at hmem
      subst hmem
      decide⟩)
  ⟨(h.1 ⟨"method", by decide, rfl⟩).2.1, (h.2 _ rfl).2.1 rfl⟩

/-- C10, the failing runs: the selector `cafe` matches no service of
`sample_manager`.  With two name servers the second store of the loop is
outside the one-slot vector, before the target is looked up: the handler does
not return and sends no reply.  With one name server the not-found error is
sent, and then `g_strfreev` walks past the vector, which holds no NULL slot:
the handler does not return. -/
theorem handle_set_dns_command_no_target_overflow :
    get_connman_service sample_manager (some "cafe") = none
    ∧ dns_stores_overflow
        (build_dns_vector (jvalue.jarray [jvalue.jstring "8.8.8.8", jvalue.jstring "1.1.1.1"]))
      = true
    ∧ (handle_set_dns_command reference_api (some sample_manager) true
        (jvalue.jobject
          [("dns", jvalue.jarray [jvalue.jstring "8.8.8.8", jvalue.jstring "1.1.1.1"]),
           ("ssid", jvalue.jstring "cafe")])).ret = none
    ∧ (handle_set_dns_command reference_api (some sample_manager) true
        (jvalue.jobject
          [("dns", jvalue.jarray [jvalue.jstring "8.8.8.8", jvalue.jstring "1.1.1.1"]),
           ("ssid", jvalue.jstring "cafe")])).effects = []
    ∧ dns_read_overflows (build_dns_vector (jvalue.jarray [jvalue.jstring "8.8.8.8"])) = true
    ∧ (handle_set_dns_command reference_api (some sample_manager) true
        (jvalue.jobject
          [("dns", jvalue.jarray [jvalue.jstring "8.8.8.8"]),
           ("ssid", jvalue.jstring "cafe")])).ret = none
    ∧ (handle_set_dns_command reference_api (some sample_manager) true
        (jvalue.jobject
          [("dns", jvalue.jarray [jvalue.jstring "8.8.8.8"]),
           ("ssid", jvalue.jstring "cafe")])).effects
      = [effect.reply (ls_reply.LSMessageReplyCustomError "No connected network")] :=
  ⟨rfl, rfl, rfl, rfl, rfl, rfl, rfl⟩

/-! ## setipv4 and setdns: applying the change -/

theorem handle_set_ipv4_command_target (api : connman_api) (manager : connman_manager_t)
    (parsedObj : jvalue) (service : connman_service_t)
    (hcheck : (api.connman_status_check (some manager)).1 = true)
    (hparsed : jis_null parsedObj = false)
    (hgiven : ∃ key, key ∈ ["method", "address", "netmask", "gateway", "ssid"]
      ∧ (jobject_get_exists parsedObj key).isSome = true)
    (hget : get_connman_service manager (request_ssid parsedObj) = some service) :
    handle_set_ipv4_command api (some manager) true parsedObj
      = { ret := some true
          effects := (api.connman_status_check (some manager)).2.map effect.reply
            ++ [effect.mutate
                  (mutator_call.connman_service_set_ipv4 service (request_ipv4 parsedObj)),
                effect.reply
                  (if api.connman_service_set_ipv4 service (request_ipv4 parsedObj) = true
                    then ls_reply.LSMessageReplySuccess
                    else ls_reply.LSMessageReplyErrorUnknown)] } := by
  have hinv : ((jobject_get_exists parsedObj "method").isNone
      && (jobject_get_exists parsedObj "address").isNone
      && (jobject_get_exists parsedObj "netmask").isNone
      && (jobject_get_exists parsedObj "gateway").isNone
      && (jobject_get_exists parsedObj "ssid").isNone) = false := by
    obtain ⟨key, hmem, hk⟩ := hgiven
    simp only [List.mem_cons, List.mem_singleton, List.not_mem_nil, or_false] at hmem
    rw [Option.isSome_iff_exists] at hk
    obtain ⟨v, hv⟩ := hk
    rcases hmem with rfl | rfl | rfl | rfl | rfl <;> simp [hv]
  simp only [request_ssid] at hget
  simp only [handle_set_ipv4_command, hcheck, hparsed, hinv, hget, request_ipv4]
  by_cases hres : api.connman_service_set_ipv4 service
      { method := (jobject_get_exists parsedObj "method").bind jstring_get
        address := (jobject_get_exists parsedObj "address").bind jstring_get
        netmask := (jobject_get_exists parsedObj "netmask").bind jstring_get
        gateway := (jobject_get_exists parsedObj "gateway").bind jstring_get } = true
  · simp [hres]
  · simp [hres]

theorem handle_set_dns_command_target (api : connman_api) (manager : connman_manager_t)
    (parsedObj dnsObj : jvalue) (service : connman_service_t)
    (hcheck : (api.connman_status_check (some manager)).1 = true)
    (hparsed : jis_null parsedObj = false)
    (hdns : jobject_get_exists parsedObj "dns" = some dnsObj)
    (hstore : dns_stores_overflow (build_dns_vector dnsObj) = false)
    (hread : dns_read_overflows (build_dns_vector dnsObj) = false)
    (hget : get_connman_service manager (request_ssid parsedObj) = some service) :
    handle_set_dns_command api (some manager) true parsedObj
      = { ret := some true
          effects := (api.connman_status_check (some manager)).2.map effect.reply
            ++ [effect.mutate
                  (mutator_call.connman_service_set_nameservers service
                    (build_dns_vector dnsObj)),
                effect.reply
                  (if api.connman_service_set_nameservers service (build_dns_vector dnsObj)
                      = true
                    then ls_reply.LSMessageReplySuccess
                    else ls_reply.LSMessageReplyErrorUnknown)] } := by
  simp only [request_ssid] at hget
  simp only [handle_set_dns_command, hcheck, hparsed, hdns, hget, hstore, hread]
  by_cases hres : api.connman_service_set_nameservers service (build_dns_vector dnsObj) = true
  · simp [hres]
  · simp [hres]

/-- A validated `setipv4` request whose selector resolves to `service` makes
exactly one mutator call, the IPv4-set operation on `service`, and is answered
with success when that operation returned TRUE and with the generic Unknown
error otherwise; so does a validated `setdns` request with the nameserver-set
operation, when the stores of the loop and the walk to the NULL slot stay
inside the `dns` vector. -/
theorem handle_set_command_applies_once (api : connman_api) (manager : connman_manager_t)
    (parsedObj : jvalue) (service : connman_service_t)
    (hcheck : (api.connman_status_check (some manager)).1 = true)
    (hparsed : jis_null parsedObj = false)
    (hget : get_connman_service manager (request_ssid parsedObj) = some service) :
    ((∃ key, key ∈ ["method", "address", "netmask", "gateway", "ssid"]
        ∧ (jobject_get_exists parsedObj key).isSome = true) →
      (handle_set_ipv4_command api (some manager) true parsedObj).ret = some true
      ∧ mutator_calls (handle_set_ipv4_command api (some manager) true parsedObj).effects
        = [mutator_call.connman_service_set_ipv4 service (request_ipv4 parsedObj)]
      ∧ (handle_set_ipv4_command api (some manager) true parsedObj).effects
        = (api.connman_status_check (some manager)).2.map effect.reply
          ++ [effect.mutate
                (mutator_call.connman_service_set_ipv4 service (request_ipv4 parsedObj)),
              effect.reply
                (if api.connman_service_set_ipv4 service (request_ipv4 parsedObj) = true
                  then ls_reply.LSMessageReplySuccess
                  else ls_reply.LSMessageReplyErrorUnknown)])
    ∧ (∀ dnsObj, jobject_get_exists parsedObj "dns" = some dnsObj →
      dns_stores_overflow (build_dns_vector dnsObj) = false →
      dns_read_overflows (build_dns_vector dnsObj) = false →
      (handle_set_dns_command api (some manager) true parsedObj).ret = some true
      ∧ mutator_calls (handle_set_dns_command api (some manager) true parsedObj).effects
        = [mutator_call.connman_service_set_nameservers service (build_dns_vector dnsObj)]
      ∧ (handle_set_dns_command api (some manager) true parsedObj).effects
        = (api.connman_status_check (some manager)).2.map effect.reply
          ++ [effect.mutate
                (mutator_call.connman_service_set_nameservers service
                  (build_dns_vector dnsObj)),
              effect.reply
                (if api.connman_service_set_nameservers service (build_dns_vector dnsObj)
                    = true
                  then ls_reply.LSMessageReplySuccess
                  else ls_reply.LSMessageReplyErrorUnknown)]) := by
  constructor
  · intro hgiven
    rw [handle_set_ipv4_command_target api manager parsedObj service hcheck hparsed hgiven hget]
    refine ⟨rfl, ?_, rfl⟩
    simp [mutator_calls_append, mutator_calls_replies, mutator_calls]
  · intro dnsObj hdns hstore hread
    rw [handle_set_dns_command_target api manager parsedObj dnsObj service hcheck hparsed
      hdns hstore hread hget]
    refine ⟨rfl, ?_, rfl⟩
    simp [mutator_calls_append, mutator_calls_replies, mutator_calls]

/-- The lemma `handle_set_command_applies_once`, evaluated: a `setipv4`
request for the wifi service `home` is answered with success when the mutator
succeeds, and a `setdns` request for it with an empty array with the Unknown
error when the mutator fails; each calls the mutator once. -/
theorem handle_set_command_applies_once_witness :
    (handle_set_ipv4_command reference_api (some sample_manager) true
        (jvalue.jobject [("method", jvalue.jstring "dhcp"),
          ("dns", jvalue.jarray []),
          ("ssid", jvalue.jstring "home")])).effects
      = [effect.mutate (mutator_call.connman_service_set_ipv4 wifi_ready
            { method := some "dhcp", address := none, netmask := none, gateway := none }),
         effect.reply ls_reply.LSMessageReplySuccess]
    ∧ (handle_set_dns_command failing_api (some sample_manager) true
        (jvalue.jobject [("method", jvalue.jstring "dhcp"),
          ("dns", jvalue.jarray []),
          ("ssid", jvalue.jstring "home")])).effects
      = [effect.mutate (mutator_call.connman_service_set_nameservers wifi_ready
            { allocated := 1, written := [] }),
         effect.reply ls_reply.LSMessageReplyErrorUnknown] :=
  ⟨((handle_set_command_applies_once reference_api sample_manager
      (jvalue.jobject [("method", jvalue.jstring "dhcp"),
        ("dns", jvalue.jarray []),
        ("ssid", jvalue.jstring "home")]) wifi_ready rfl rfl rfl).1
      ⟨"method", by decide, rfl⟩).2.2,
   ((handle_set_command_applies_once failing_api sample_manager
      (jvalue.jobject [("method", jvalue.jstring "dhcp"),
        ("dns", jvalue.jarray []),
        ("ssid", jvalue.jstring "home")]) wifi_ready rfl rfl rfl).2
      (jvalue.jarray []) rfl rfl rfl).2.2⟩

/-- C11, the failing runs: the selector `home` resolves to the wifi service
`wifi_ready`.  With one name server the handler calls the nameserver-set
operation with a one-slot vector that holds no NULL slot, so the operation
walks past the vector: the handler does not return and sends no reply.  With
two name servers the second store of the loop is outside the vector, before
the target is looked up: the operation is not called at all. -/
theorem handle_set_dns_command_target_overflow :
    get_connman_service sample_manager (some "home") = some wifi_ready
    ∧ dns_read_overflows (build_dns_vector (jvalue.jarray [jvalue.jstring "8.8.8.8"])) = true
    ∧ (handle_set_dns_command reference_api (some sample_manager) true
        (jvalue.jobject
          [("dns", jvalue.jarray [jvalue.jstring "8.8.8.8"]),
           ("ssid", jvalue.jstring "home")])).ret = none
    ∧ (handle_set_dns_command reference_api (some sample_manager) true
        (jvalue.jobject
          [("dns", jvalue.jarray [jvalue.jstring "8.8.8.8"]),
           ("ssid", jvalue.jstring "home")])).effects
      = [effect.mutate (mutator_call.connman_service_set_nameservers wifi_ready
            { allocated := 1, written := [some "8.8.8.8"] })]
    ∧ dns_stores_overflow
        (build_dns_vector (jvalue.jarray [jvalue.jstring "8.8.8.8", jvalue.jstring "1.1.1.1"]))
      = true
    ∧ (handle_set_dns_command reference_api (some sample_manager) true
        (jvalue.jobject
          [("dns", jvalue.jarray [jvalue.jstring "8.8.8.8", jvalue.jstring "1.1.1.1"]),
           ("ssid", jvalue.jstring "home")])).ret = none
    ∧ (handle_set_dns_command reference_api (some sample_manager) true
        (jvalue.jobject
          [("dns", jvalue.jarray [jvalue.jstring "8.8.8.8", jvalue.jstring "1.1.1.1"]),
           ("ssid", jvalue.jstring "home")])).effects = [] :=
  ⟨rfl, rfl, rfl, rfl, rfl, rfl, rfl⟩

/-- C12 as stated fails: the request `{dns: []}` passes validation, and with a
wired service in the registry the nameserver-set operation is called with an
empty vector and the reply is success, not InvalidParams. -/
theorem handle_set_dns_command_empty_array_counterexample :
    jobject_get_exists (jvalue.jobject [("dns", jvalue.jarray [])]) "dns"
      = some (jvalue.jarray [])
    ∧ (handle_set_dns_command reference_api (some sample_manager) true
        (jvalue.jobject [("dns", jvalue.jarray [])])).effects
      = [effect.mutate (mutator_call.connman_service_set_nameservers wired_online
            { allocated := 1, written := [] }),
         effect.reply ls_reply.LSMessageReplySuccess]
    ∧ replies (handle_set_dns_command reference_api (some sample_manager) true
        (jvalue.jobject [("dns", jvalue.jarray [])])).effects
      ≠ [ls_reply.LSMessageReplyErrorInvalidParams] := by
  refine ⟨rfl, rfl, ?_⟩
  intro h
  have h2 : [ls_reply.LSMessageReplySuccess] = [ls_reply.LSMessageReplyErrorInvalidParams] := h
  cases h2

/-- C12, amended: a `setdns` request that reaches field validation (status
check passed, schema created, payload parsed) and has no `dns` member is
answered with InvalidParams and no mutator is called; a request whose `dns`
member is an empty array is not rejected: when its selector resolves to a
service, the nameserver-set operation is called on it with an empty vector. -/
theorem handle_set_dns_command_requires_dns (api : connman_api)
    (manager : Option connman_manager_t) (parsedObj : jvalue)
    (hcheck : (api.connman_status_check manager).1 = true)
    (hparsed : jis_null parsedObj = false) :
    (jobject_get_exists parsedObj "dns" = none →
      (handle_set_dns_command api manager true parsedObj).ret = some true
      ∧ (handle_set_dns_command api manager true parsedObj).effects
        = (api.connman_status_check manager).2.map effect.reply
          ++ [effect.reply ls_reply.LSMessageReplyErrorInvalidParams]
      ∧ mutator_calls (handle_set_dns_command api manager true parsedObj).effects = [])
    ∧ (∀ m service, manager = some m →
      jobject_get_exists parsedObj "dns" = some (jvalue.jarray []) →
      get_connman_service m (request_ssid parsedObj) = some service →
      mutator_calls (handle_set_dns_command api manager true parsedObj).effects
        = [mutator_call.connman_service_set_nameservers service
            { allocated := 1, written := [] }]) := by
  constructor
  · intro hdns
    have heff : handle_set_dns_command api manager true parsedObj
        = { ret := some true
            effects := (api.connman_status_check manager).2.map effect.reply
              ++ [effect.reply ls_reply.LSMessageReplyErrorInvalidParams] } := by
      simp [handle_set_dns_command, hcheck, hparsed, hdns]
    refine ⟨by rw [heff], by rw [heff], ?_⟩
    rw [heff]
    simp [mutator_calls_append, mutator_calls_replies, mutator_calls]
  · intro m service hm hdns hget
    subst hm
    rw [handle_set_dns_command_target api m parsedObj _ service hcheck hparsed hdns rfl rfl
      hget]
    simp [mutator_calls_append, mutator_calls_replies, mutator_calls, build_dns_vector,
      jarray_size]

/-- C12 amended, evaluated on the request `{ssid:"home"}`. -/
theorem handle_set_dns_command_requires_dns_witness :
    (handle_set_dns_command reference_api (some sample_manager) true
        (jvalue.jobject [("ssid", jvalue.jstring "home")])).effects
      = [effect.reply ls_reply.LSMessageReplyErrorInvalidParams] :=
  ((handle_set_dns_command_requires_dns reference_api (some sample_manager)
    (jvalue.jobject [("ssid", jvalue.jstring "home")]) rfl rfl).1 rfl).2.1

/-! ## Notifications -/

theorem connectionmanager_send_status_posts (api : connman_api)
    (manager : Option connman_manager_t) :
    connectionmanager_send_status api manager true =
      [effect.LSSubscriptionPost "/" "getstatus" (status_notification api manager),
       effect.LSSubscriptionPost "/" "getStatus" (status_notification api manager)] := by
  cases manager <;> rfl

/-- C14 as stated fails: one `Powered` event makes two subscription posts,
not one, and the posted document is the same whether the wifi technology is
powered or not. -/
theorem powered_event_posts_counterexample :
    posts (technology_property_changed_callback reference_api (some sample_manager)
        (some { powered := true }) "Powered" true)
      = [("getstatus", status_notification reference_api (some sample_manager)),
         ("getStatus", status_notification reference_api (some sample_manager))]
    ∧ (posts (technology_property_changed_callback reference_api (some sample_manager)
        (some { powered := true }) "Powered" true)).length ≠ 1
    ∧ is_wifi_powered reference_api (some sample_manager) = false
    ∧ is_wifi_powered wifi_on_api (some sample_manager) = true
    ∧ posts (technology_property_changed_callback reference_api (some sample_manager)
        (some { powered := false }) "Powered" true)
      = posts (technology_property_changed_callback wifi_on_api (some sample_manager)
        (some { powered := true }) "Powered" true) := by
  refine ⟨rfl, ?_, rfl, rfl, rfl⟩
  have h : (posts (technology_property_changed_callback reference_api (some sample_manager)
      (some { powered := true }) "Powered" true)).length = 2 := rfl
  omega

theorem send_connection_status_online (api : connman_api) (manager : connman_manager_t)
    (ms : List (String × jvalue)) :
    jobject_get_exists (send_connection_status api manager (jvalue.jobject ms))
        "isInternetConnectionAvailable"
      = some (jvalue.jboolean (api.connman_manager_is_manager_online (some manager))) := by
  simp only [send_connection_status]
  rw [jobject_get_put_ne _ _ _ _ (by decide), jobject_get_put_ne _ _ _ _ (by decide),
    jobject_get_put_ne _ _ _ _ (by decide), jobject_get_put_ne _ _ _ _ (by decide)]
  exact jobject_get_put_same _ _ _ rfl

/-- C14, amended: a `Powered` event on a technology makes exactly two
subscription posts, one for the method `getstatus` and one for `getStatus`,
both with the same document.  The document is computed from the registry at
the time of the event: its `wired` and `wifi` sections are the mapped status
of the current service lists, `offlineMode` and
`isInternetConnectionAvailable` the current flags of the registry.  It does
not depend on the technology lookups, so it holds no powered flag. -/
theorem powered_event_posts (api : connman_api) (manager : connman_manager_t)
    (technology : connman_technology_t) :
    technology_property_changed_callback api (some manager) (some technology) "Powered" true
      = [effect.LSSubscriptionPost "/" "getstatus" (status_notification api (some manager)),
         effect.LSSubscriptionPost "/" "getStatus" (status_notification api (some manager))]
    ∧ jobject_get_exists (status_notification api (some manager)) "wired"
      = some (technology_status api manager.wired_services)
    ∧ jobject_get_exists (status_notification api (some manager)) "wifi"
      = some (technology_status api manager.wifi_services)
    ∧ jobject_get_exists (status_notification api (some manager)) "offlineMode"
      = some (jvalue.jstring
          (if (!api.connman_manager_is_manager_available (some manager)) = true
            then "enabled" else "disabled"))
    ∧ jobject_get_exists (status_notification api (some manager))
        "isInternetConnectionAvailable"
      = some (jvalue.jboolean (api.connman_manager_is_manager_online (some manager)))
    ∧ (∀ wifi ethernet cellular,
        status_notification
          { api with
            connman_manager_find_wifi_technology := wifi
            connman_manager_find_ethernet_technology := ethernet
            connman_manager_find_cellular_technology := cellular } (some manager)
          = status_notification api (some manager)) := by
  refine ⟨?_, ?_, ?_, ?_, ?_, ?_⟩
  · simp only [technology_property_changed_callback, true_or, if_true,
      connectionmanager_send_status_posts]
  · simp only [status_notification]
    rw [jobject_get_put_ne _ _ _ _ (by decide)]
    exact send_connection_status_wired api manager _
  · simp only [status_notification]
    rw [jobject_get_put_ne _ _ _ _ (by decide)]
    exact send_connection_status_wifi api manager _
  · simp only [status_notification]
    rw [jobject_get_put_ne _ _ _ _ (by decide)]
    exact send_connection_status_offlineMode api manager _
  · simp only [status_notification]
    rw [jobject_get_put_ne _ _ _ _ (by decide)]
    exact send_connection_status_online api manager _
  · intro wifi ethernet cellular
    rfl

/-! ## The WAN status document -/

theorem add_connected_service_status_entry (api : connman_api)
    (service : connman_service_t) :
    add_connected_service_status api jobject_create (some service)
      = connected_service_entry api service := by
  simp [add_connected_service_status, connected_service_entry, jobject_create, jobject_put,
    members_put, jarray_create, jarray_append]

theorem connected_services_loop_eq (api : connman_api) :
    ∀ (services : List connman_service_t) (items : List jvalue) (usable : Bool),
      connected_services_loop api services (jvalue.jarray items) usable
        = (jvalue.jarray (items ++ services.map (connected_service_entry api)),
           usable || any_online api services) := by
  intro services
  induction services with
  | nil => intro items usable; simp [connected_services_loop, any_online]
  | cons service rest ih =>
    intro items usable
    simp only [connected_services_loop, add_connected_service_status_entry, jarray_append, ih]
    simp [any_online, Bool.or_assoc]

theorem create_connection_status_reply_connectedservices (api : wan_api)
    (manager : connman_manager_t) (ms : List (String × jvalue)) :
    jobject_get_exists (create_connection_status_reply api manager (jvalue.jobject ms))
        "connectedservices"
      = some (jvalue.jarray
          (manager.cellular_services.map (connected_service_entry api.toconnman_api))) := by
  simp only [create_connection_status_reply, jarray_create, connected_services_loop_eq,
    List.nil_append]
  apply jobject_get_put_same
  simp only [jis_object_put]
  rfl

theorem create_connection_status_reply_networkstatus (api : wan_api)
    (manager : connman_manager_t) (ms : List (String × jvalue)) :
    jobject_get_exists (create_connection_status_reply api manager (jvalue.jobject ms))
        "networkstatus"
      = some (jvalue.jstring
          (if (!manager.cellular_services.isEmpty) = true then "attached"
            else "notattached")) := by
  simp only [create_connection_status_reply]
  rw [jobject_get_put_ne _ _ _ _ (by decide), jobject_get_put_ne _ _ _ _ (by decide),
    jobject_get_put_ne _ _ _ _ (by decide)]
  apply jobject_get_put_same
  simp only [jis_object_put]
  rfl

theorem create_connection_status_reply_dataaccess (api : wan_api)
    (manager : connman_manager_t) (ms : List (String × jvalue)) :
    jobject_get_exists (create_connection_status_reply api manager (jvalue.jobject ms))
        "dataaccess"
      = some (jvalue.jstring
          (if any_online api.toconnman_api manager.cellular_services = true then "usable"
            else "unusable")) := by
  simp only [create_connection_status_reply, jarray_create, connected_services_loop_eq,
    Bool.false_or]
  rw [jobject_get_put_ne _ _ _ _ (by decide), jobject_get_put_ne _ _ _ _ (by decide)]
  apply jobject_get_put_same
  simp only [jis_object_put]
  rfl

theorem any_online_iff (api : connman_api) (services : List connman_service_t) :
    any_online api services = true ↔
      ∃ service, service ∈ services
        ∧ api.connman_service_get_state service.state = CONNMAN_SERVICE_STATE_ONLINE := by
  simp [any_online]

theorem service_to_wan_status_active (api : connman_api) (service : connman_service_t) :
    service_to_wan_status api service = "active" ↔
      api.connman_service_get_state service.state = CONNMAN_SERVICE_STATE_ONLINE := by
  simp only [service_to_wan_status]
  cases api.connman_service_get_state service.state <;> simp

/-- C15: for every registry state the WAN document holds under
`connectedservices` one entry per cellular service, in registry order, the
entry of a service being
`{connectstatus: service_to_wan_status(s), service:["internet"]}`; and
`networkstatus` is `"attached"` iff the list of cellular services is
non-empty, whatever their states, and `"notattached"` otherwise. -/
theorem create_connection_status_reply_services (api : wan_api)
    (manager : connman_manager_t) (ms : List (String × jvalue)) :
    jobject_get_exists (create_connection_status_reply api manager (jvalue.jobject ms))
        "connectedservices"
      = some (jvalue.jarray (manager.cellular_services.map (fun service =>
          jvalue.jobject
            [("connectstatus",
                jvalue.jstring (service_to_wan_status api.toconnman_api service)),
             ("service", jvalue.jarray [jvalue.jstring "internet"])])))
    ∧ (jobject_get_exists (create_connection_status_reply api manager (jvalue.jobject ms))
          "networkstatus" = some (jvalue.jstring "attached")
        ↔ manager.cellular_services ≠ [])
    ∧ (jobject_get_exists (create_connection_status_reply api manager (jvalue.jobject ms))
          "networkstatus" = some (jvalue.jstring "notattached")
        ↔ manager.cellular_services = []) := by
  refine ⟨create_connection_status_reply_connectedservices api manager ms, ?_, ?_⟩
  · rw [create_connection_status_reply_networkstatus]
    cases h : manager.cellular_services with
    | nil => simp
    | cons s rest => simp
  · rw [create_connection_status_reply_networkstatus]
    cases h : manager.cellular_services with
    | nil => simp
    | cons s rest => simp

/-- C15, evaluated on a registry with an idle and an online cellular
service. -/
theorem create_connection_status_reply_services_witness :
    jobject_get_exists (create_connection_status_reply cellular_wan_api cellular_manager
        (jvalue.jobject [])) "connectedservices"
      = some (jvalue.jarray
          [jvalue.jobject [("connectstatus", jvalue.jstring "disconnected"),
             ("service", jvalue.jarray [jvalue.jstring "internet"])],
           jvalue.jobject [("connectstatus", jvalue.jstring "active"),
             ("service", jvalue.jarray [jvalue.jstring "internet"])]])
    ∧ jobject_get_exists (create_connection_status_reply cellular_wan_api cellular_manager
        (jvalue.jobject [])) "networkstatus" = some (jvalue.jstring "attached") :=
  ⟨(create_connection_status_reply_services cellular_wan_api cellular_manager []).1,
   (create_connection_status_reply_services cellular_wan_api cellular_manager []).2.1.2
     (by decide)⟩

/-- C16: for every registry state the WAN document has
`dataaccess = "usable"` iff some cellular service is online, and `"unusable"`
otherwise; `service_to_wan_status` yields `"active"` exactly for the online
state, so `dataaccess` is `"usable"` iff some entry of `connectedservices` has
`connectstatus = "active"`. -/
theorem create_connection_status_reply_dataaccess_usable (api : wan_api)
    (manager : connman_manager_t) (ms : List (String × jvalue)) :
    (jobject_get_exists (create_connection_status_reply api manager (jvalue.jobject ms))
          "dataaccess" = some (jvalue.jstring "usable")
        ↔ ∃ service, service ∈ manager.cellular_services
            ∧ api.connman_service_get_state service.state = CONNMAN_SERVICE_STATE_ONLINE)
    ∧ (jobject_get_exists (create_connection_status_reply api manager (jvalue.jobject ms))
          "dataaccess" = some (jvalue.jstring "unusable")
        ↔ ¬ ∃ service, service ∈ manager.cellular_services
            ∧ api.connman_service_get_state service.state = CONNMAN_SERVICE_STATE_ONLINE)
    ∧ (∀ service, service_to_wan_status api.toconnman_api service = "active"
        ↔ api.connman_service_get_state service.state = CONNMAN_SERVICE_STATE_ONLINE)
    ∧ (∃ entries,
        jobject_get_exists (create_connection_status_reply api manager (jvalue.jobject ms))
          "connectedservices" = some (jvalue.jarray entries)
        ∧ ((∃ entry, entry ∈ entries
              ∧ jobject_get_exists entry "connectstatus" = some (jvalue.jstring "active"))
          ↔ jobject_get_exists
              (create_connection_status_reply api manager (jvalue.jobject ms)) "dataaccess"
              = some (jvalue.jstring "usable"))) := by
  have husable : jobject_get_exists
      (create_connection_status_reply api manager (jvalue.jobject ms)) "dataaccess"
        = some (jvalue.jstring "usable")
      ↔ ∃ service, service ∈ manager.cellular_services
          ∧ api.connman_service_get_state service.state = CONNMAN_SERVICE_STATE_ONLINE := by
    rw [create_connection_status_reply_dataaccess, ← any_online_iff]
    cases any_online api.toconnman_api manager.cellular_services
    · simp
    · simp
  refine ⟨husable, ?_, service_to_wan_status_active api.toconnman_api, ?_⟩
  · rw [create_connection_status_reply_dataaccess, ← any_online_iff]
    cases any_online api.toconnman_api manager.cellular_services
    · simp
    · simp
  · refine ⟨_, create_connection_status_reply_connectedservices api manager ms, ?_⟩
    rw [husable]
    constructor
    · rintro ⟨entry, hmem, hget⟩
      obtain ⟨service, hs, rfl⟩ := List.mem_map.1 hmem
      refine ⟨service, hs, ?_⟩
      have hstatus : service_to_wan_status api.toconnman_api service = "active" := by
        simpa [connected_service_entry, jobject_get_exists, members_get] using hget
      exact (service_to_wan_status_active api.toconnman_api service).1 hstatus
    · rintro ⟨service, hs, hstate⟩
      refine ⟨connected_service_entry api.toconnman_api service,
        List.mem_map.2 ⟨service, hs, rfl⟩, ?_⟩
      have hstatus := (service_to_wan_status_active api.toconnman_api service).2 hstate
      simp [connected_service_entry, jobject_get_exists, members_get, hstatus]

/-- C16, evaluated: with an online cellular service `dataaccess` is
`"usable"`, without cellular services it is `"unusable"`. -/
theorem create_connection_status_reply_dataaccess_usable_witness :
    jobject_get_exists (create_connection_status_reply cellular_wan_api cellular_manager
        (jvalue.jobject [])) "dataaccess" = some (jvalue.jstring "usable")
    ∧ jobject_get_exists (create_connection_status_reply cellular_wan_api sample_manager
        (jvalue.jobject [])) "dataaccess" = some (jvalue.jstring "unusable") :=
  ⟨(create_connection_status_reply_dataaccess_usable cellular_wan_api cellular_manager
      []).1.2 ⟨cellular_online, by decide, by decide⟩,
   (create_connection_status_reply_dataaccess_usable cellular_wan_api sample_manager
      []).2.1.2 (by rintro ⟨service, hmem, _⟩; cases hmem)⟩

/-- C17: a WAN getstatus request that passes `connman_status_check` while the
registry has no cellular technology is answered with the custom error
"Cellular technology unavailable", and the handler sends no status
document. -/
theorem wan_handle_get_status_command_unavailable (api : wan_api)
    (manager : Option connman_manager_t) (subscription : Option Bool) (schema_ok : Bool)
    (hcheck : (api.connman_status_check manager).1 = true)
    (hno : api.connman_manager_find_technology manager
      connman_technology_type.CONNMAN_TECHNOLOGY_CELLULAR = none) :
    (wan_handle_get_status_command api manager subscription schema_ok).ret = some true
    ∧ (wan_handle_get_status_command api manager subscription schema_ok).effects
      = (api.connman_status_check manager).2.map effect.reply
        ++ [effect.reply (ls_reply.LSMessageReplyCustomError "Cellular technology unavailable")]
    ∧ replies (wan_handle_get_status_command api manager subscription schema_ok).effects
      = (api.connman_status_check manager).2
        ++ [ls_reply.LSMessageReplyCustomError "Cellular technology unavailable"] := by
  have heff : wan_handle_get_status_command api manager subscription schema_ok
      = { ret := some true
          effects := (api.connman_status_check manager).2.map effect.reply
            ++ [effect.reply
                (ls_reply.LSMessageReplyCustomError "Cellular technology unavailable")] } := by
    simp [wan_handle_get_status_command, hcheck, cellular_technology_status_check, hno]
  refine ⟨by rw [heff], by rw [heff], ?_⟩
  rw [heff]
  simp [replies_append, replies_map_reply, replies]

/-- C17, evaluated on a subscribing request in a registry without cellular
technology. -/
theorem wan_handle_get_status_command_unavailable_witness :
    (wan_handle_get_status_command reference_wan_api (some sample_manager) (some true)
        true).effects
      = [effect.reply (ls_reply.LSMessageReplyCustomError "Cellular technology unavailable")] :=
  (wan_handle_get_status_command_unavailable reference_wan_api (some sample_manager)
    (some true) true rfl rfl).2.1

/-! ## Pushed documents and replies -/

theorem jobject_get_put_congr (obj other : jvalue) (key name : String) (val : jvalue)
    (hobj : jis_object obj = true) (hother : jis_object other = true)
    (h : jobject_get_exists obj name = jobject_get_exists other name) :
    jobject_get_exists (jobject_put obj key val) name
      = jobject_get_exists (jobject_put other key val) name := by
  by_cases hk : name = key
  · subst hk
    rw [jobject_get_put_same _ _ _ hobj, jobject_get_put_same _ _ _ hother]
  · rw [jobject_get_put_ne _ _ _ _ hk, jobject_get_put_ne _ _ _ _ hk, h]

theorem send_connection_status_get_congr (api : connman_api) (manager : connman_manager_t)
    (obj other : jvalue) (name : String)
    (hobj : jis_object obj = true) (hother : jis_object other = true)
    (h : jobject_get_exists obj name = jobject_get_exists other name) :
    jobject_get_exists (send_connection_status api manager obj) name
      = jobject_get_exists (send_connection_status api manager other) name := by
  simp only [send_connection_status]
  apply jobject_get_put_congr _ _ _ _ _ (by simp only [jis_object_put, hobj])
    (by simp only [jis_object_put, hother])
  apply jobject_get_put_congr _ _ _ _ _ (by simp only [jis_object_put, hobj])
    (by simp only [jis_object_put, hother])
  apply jobject_get_put_congr _ _ _ _ _ (by simp only [jis_object_put, hobj])
    (by simp only [jis_object_put, hother])
  apply jobject_get_put_congr _ _ _ _ _ (by simp only [jis_object_put, hobj])
    (by simp only [jis_object_put, hother])
  exact jobject_get_put_congr _ _ _ _ _ hobj hother h

theorem jis_object_send_connection_status (api : connman_api) (manager : connman_manager_t)
    (obj : jvalue) :
    jis_object (send_connection_status api manager obj) = jis_object obj := by
  simp only [send_connection_status, jis_object_put]

/-- The general view: the document posted by `connectionmanager_send_status`
and the document `handle_get_status_command` replies with in the same registry
state hold the same value under every key other than `subscribed`. -/
theorem status_notification_matches_reply (api : connman_api)
    (manager : Option connman_manager_t) (subscription : Option Bool) :
    ∃ doc, (handle_get_status_command api manager subscription true).effects
        = [effect.reply (ls_reply.LSMessageReply doc)]
      ∧ ∀ key, key ≠ "subscribed" →
          jobject_get_exists (status_notification api manager) key
            = jobject_get_exists doc key := by
  refine ⟨_, rfl, ?_⟩
  intro key hkey
  have hbase : ∀ base : jvalue,
      base = jobject_create
        ∨ (∃ s, base = jobject_put jobject_create "subscribed" (jvalue.jboolean s)) →
      jis_object base = true
      ∧ (key ≠ "returnValue" →
          jobject_get_exists
              (jobject_put jobject_create "returnValue" (jvalue.jboolean true)) key
            = jobject_get_exists base key) := by
    intro base hb
    rcases hb with rfl | ⟨s, rfl⟩
    · exact ⟨rfl, fun hrv => jobject_get_put_ne _ _ _ _ hrv⟩
    · refine ⟨rfl, fun hrv => ?_⟩
      rw [jobject_get_put_ne _ _ _ _ hrv, jobject_get_put_ne _ _ _ _ hkey]
  have hsub : (match subscription with
      | some subscribed => jobject_put jobject_create "subscribed" (jvalue.jboolean subscribed)
      | none => jobject_create) = jobject_create
        ∨ (∃ s, (match subscription with
          | some subscribed =>
            jobject_put jobject_create "subscribed" (jvalue.jboolean subscribed)
          | none => jobject_create)
            = jobject_put jobject_create "subscribed" (jvalue.jboolean s)) := by
    cases subscription with
    | none => exact Or.inl rfl
    | some s => exact Or.inr ⟨s, rfl⟩
  obtain ⟨hobj, hget⟩ := hbase _ hsub
  simp only [status_notification]
  by_cases hrv : key = "returnValue"
  · subst hrv
    cases manager with
    | none =>
      rw [jobject_get_put_same (jobject_put jobject_create "returnValue" (jvalue.jboolean true))
        _ _ rfl, jobject_get_put_same _ _ _ hobj]
    | some m =>
      rw [jobject_get_put_same _ _ _ (by rw [jis_object_send_connection_status]; rfl),
        jobject_get_put_same _ _ _ (by rw [jis_object_send_connection_status]; exact hobj)]
  · rw [jobject_get_put_ne _ _ _ _ hrv, jobject_get_put_ne _ _ _ _ hrv]
    cases manager with
    | none => exact hget hrv
    | some m => exact send_connection_status_get_congr api m _ _ key rfl hobj (hget hrv)

/-- C18, the failing run: in a registry without cellular technology a WAN
getstatus call is answered with the error "Cellular technology unavailable",
while a services-changed event in the same state posts a success document to
the WAN subscribers. -/
theorem wan_push_without_cellular_technology :
    (wan_handle_get_status_command reference_wan_api (some sample_manager) (some true)
        true).effects
      = [effect.reply (ls_reply.LSMessageReplyCustomError "Cellular technology unavailable")]
    ∧ cellular_services_changed_cb reference_wan_api (some sample_manager) true
      = some ([], [effect.LSSubscriptionPost "/" "getstatus"
          (jvalue.jobject
            [("returnValue", jvalue.jboolean true),
             ("state", jvalue.jstring "disabled"),
             ("networkstatus", jvalue.jstring "notattached"),
             ("dataaccess", jvalue.jstring "unusable"),
             ("networktype", jvalue.jstring "umts"),
             ("connectedservices", jvalue.jarray [])])]) :=
  ⟨rfl, rfl⟩

/-! ## Replies on every path -/

/-- C19, the failing runs: when `jschema_parse` returns no schema, the
`setstate`, `setipv4` and `setdns` handlers return without sending a reply of
their own (`setstate` returns false with no effect at all), and `getinfo`
dereferences `manager` when it is NULL, before any reply. -/
theorem handlers_without_reply :
    (∀ (api : connman_api) (manager : Option connman_manager_t) (parsedObj : jvalue),
      (handle_set_state_command api manager false parsedObj).ret = some false
      ∧ (handle_set_state_command api manager false parsedObj).effects = [])
    ∧ (∀ (api : connman_api) (manager : Option connman_manager_t) (parsedObj : jvalue),
      (handle_set_ipv4_command api manager false parsedObj).effects
        = (api.connman_status_check manager).2.map effect.reply
      ∧ (handle_set_dns_command api manager false parsedObj).effects
        = (api.connman_status_check manager).2.map effect.reply)
    ∧ (handle_set_ipv4_command reference_api (some sample_manager) false
          (jvalue.jobject [("method", jvalue.jstring "dhcp")])).ret = some false
    ∧ replies (handle_set_ipv4_command reference_api (some sample_manager) false
          (jvalue.jobject [("method", jvalue.jstring "dhcp")])).effects = []
    ∧ (handle_set_dns_command reference_api (some sample_manager) false
          (jvalue.jobject [("dns", jvalue.jarray [jvalue.jstring "8.8.8.8"])])).ret
        = some false
    ∧ replies (handle_set_dns_command reference_api (some sample_manager) false
          (jvalue.jobject [("dns", jvalue.jarray [jvalue.jstring "8.8.8.8"])])).effects = []
    ∧ (∀ (api : connman_api) (schema_ok : Bool),
      (handle_get_info_command api none schema_ok).ret = none
      ∧ (handle_get_info_command api none schema_ok).effects = []) := by
  refine ⟨fun api manager parsedObj => ⟨rfl, rfl⟩, ?_, rfl, rfl, rfl, rfl,
    fun api schema_ok => ⟨rfl, rfl⟩⟩
  intro api manager parsedObj
  constructor
  · by_cases h : (api.connman_status_check manager).1 = true
    · simp [handle_set_ipv4_command, h]
    · simp [handle_set_ipv4_command, h]
  · by_cases h : (api.connman_status_check manager).1 = true
    · simp [handle_set_dns_command, h]
    · simp [handle_set_dns_command, h]

/-- With a schema, `handle_set_state_command` sends exactly one reply on
every path. -/
theorem handle_set_state_command_one_reply (api : connman_api)
    (manager : Option connman_manager_t) (parsedObj : jvalue) :
    (handle_set_state_command api manager true parsedObj).ret = some true
    ∧ (replies (handle_set_state_command api manager true parsedObj).effects).length = 1 := by
  have hblock : ∀ block : Option (List effect × Bool),
      (block = set_state_wifi_block api manager parsedObj
        ∨ block = set_state_wired_block api manager parsedObj
        ∨ block = set_state_offline_block api manager parsedObj) →
      ∀ es given, block = some (es, given) → replies es = [] := by
    intro block hb es given he
    rcases hb with rfl | rfl | rfl
    · simp only [set_state_wifi_block] at he
      split at he
      · cases he; rfl
      · split at he
        · cases he
        · split at he <;> cases he <;> rfl
    · simp only [set_state_wired_block] at he
      split at he
      · cases he; rfl
      · split at he
        · cases he
        · split at he <;> cases he <;> rfl
    · simp only [set_state_offline_block] at he
      split at he
      · cases he; rfl
      · split at he
        · cases he
        · split at he <;> cases he <;> rfl
  simp only [handle_set_state_command]
  by_cases hnull : jis_null parsedObj = true
  · simp [hnull, replies]
  · simp only [hnull]
    cases h1 : set_state_wifi_block api manager parsedObj with
    | none => simp [replies]
    | some p1 =>
      obtain ⟨e1, g1⟩ := p1
      have r1 := hblock _ (Or.inl rfl) e1 g1 h1
      cases h2 : set_state_wired_block api manager parsedObj with
      | none => simp [replies, replies_append, r1]
      | some p2 =>
        obtain ⟨e2, g2⟩ := p2
        have r2 := hblock _ (Or.inr (Or.inl rfl)) e2 g2 h2
        cases h3 : set_state_offline_block api manager parsedObj with
        | none => simp [replies, replies_append, r1, r2]
        | some p3 =>
          obtain ⟨e3, g3⟩ := p3
          have r3 := hblock _ (Or.inr (Or.inr rfl)) e3 g3 h3
          by_cases hg : (!(g1 || g2 || g3)) = true
          · simp [hg, replies, replies_append, r1, r2, r3]
          · simp [hg, replies, replies_append, r1, r2, r3]

/-! ## The cellular discovery poll -/

/-- C20, the failing runs: `check_cellular_status_cb` reaches the end of its
body without a `return` statement on every invocation, so it returns neither
'continue' while the technology is absent nor 'stop' when it is found; it
registers the change callback on the cellular technology whenever that one is
present, and the 500 ms timeout is added at start-up iff it is absent then. -/
theorem check_cellular_status_cb_no_return (api : connman_api)
    (manager : Option connman_manager_t) :
    (check_cellular_status_cb api manager).ret = none
    ∧ (check_cellular_status_cb api manager).registered
      = (api.connman_manager_find_cellular_technology manager).toList
    ∧ (initialize_technology_callbacks api manager).2
      = (if (api.connman_manager_find_cellular_technology manager).isNone = true
          then some 500 else none) := by
  cases h : api.connman_manager_find_cellular_technology manager <;>
    simp [check_cellular_status_cb, initialize_technology_callbacks, h]

/-! ## Target resolution -/

theorem find_first_match {α : Type} (p : α → Bool) (xs : List α) (x : α) :
    xs.find? p = some x ↔
      ∃ before after, xs = before ++ x :: after ∧ p x = true
        ∧ ∀ y, y ∈ before → p y = false := by
  induction xs with
  | nil => simp
  | cons head rest ih =>
    by_cases hp : p head = true
    · simp only [List.find?_cons, hp, Option.some.injEq]
      constructor
      · rintro rfl
        exact ⟨[], rest, rfl, hp, fun y hy => by cases hy⟩
      · rintro ⟨before, after, hxs, _, hall⟩
        cases before with
        | nil =>
          simp only [List.nil_append, List.cons.injEq] at hxs
          exact hxs.1
        | cons b bs =>
          simp only [List.cons_append, List.cons.injEq] at hxs
          have := hall b (List.mem_cons_self _ _)
          rw [← hxs.1, hp] at this
          cases this
    · have hp2 : p head = false := by simpa using hp
      simp only [List.find?_cons, hp2, ih]
      constructor
      · rintro ⟨before, after, hxs, hx, hall⟩
        refine ⟨head :: before, after, by rw [hxs]; rfl, hx, ?_⟩
        intro y hy
        rcases List.mem_cons.1 hy with rfl | hy
        · exact hp2
        · exact hall y hy
      · rintro ⟨before, after, hxs, hx, hall⟩
        cases before with
        | nil =>
          simp only [List.nil_append, List.cons.injEq] at hxs
          rw [← hxs.1, hp2] at hx
          cases hx
        | cons b bs =>
          simp only [List.cons_append, List.cons.injEq] at hxs
          exact ⟨bs, after, hxs.2, hx, fun y hy => hall y (List.mem_cons_of_mem _ hy)⟩

theorem name_matches_iff (service : connman_service_t) (ssid : String) :
    (match service.name with
      | some name => decide (name = ssid)
      | none => false) = true ↔ service.name = some ssid := by
  cases service.name with
  | none => simp
  | some name => simp

/-- C21: for every registry state, `get_connman_service` with an ssid yields
the first wifi service, in list order, whose name is set and equal to the
ssid; the result is always taken from the wifi list, and without a match
there is no target whatever the wired list holds.  Without an ssid it yields
the first wired service, or no target when the wired list is empty. -/
theorem get_connman_service_target (manager : connman_manager_t) :
    (∀ (ssid : String) (service : connman_service_t),
      get_connman_service manager (some ssid) = some service ↔
        ∃ before after, manager.wifi_services = before ++ service :: after
          ∧ service.name = some ssid
          ∧ ∀ earlier, earlier ∈ before → earlier.name ≠ some ssid)
    ∧ (∀ (ssid : String) (service : connman_service_t),
      get_connman_service manager (some ssid) = some service →
        service ∈ manager.wifi_services)
    ∧ (∀ ssid : String,
      get_connman_service manager (some ssid) = none ↔
        ∀ service, service ∈ manager.wifi_services → service.name ≠ some ssid)
    ∧ (∀ (first : connman_service_t) (rest : List connman_service_t),
      manager.wired_services = first :: rest →
        get_connman_service manager none = some first)
    ∧ (manager.wired_services = [] → get_connman_service manager none = none) := by
  have hfirst : ∀ (ssid : String) (service : connman_service_t),
      get_connman_service manager (some ssid) = some service ↔
        ∃ before after, manager.wifi_services = before ++ service :: after
          ∧ service.name = some ssid
          ∧ ∀ earlier, earlier ∈ before → earlier.name ≠ some ssid := by
    intro ssid service
    simp only [get_connman_service]
    rw [find_first_match]
    constructor
    · rintro ⟨before, after, hxs, hx, hall⟩
      refine ⟨before, after, hxs, (name_matches_iff service ssid).1 hx, ?_⟩
      intro earlier hmem hname
      have h1 := hall earlier hmem
      rw [(name_matches_iff earlier ssid).2 hname] at h1
      cases h1
    · rintro ⟨before, after, hxs, hx, hall⟩
      refine ⟨before, after, hxs, (name_matches_iff service ssid).2 hx, ?_⟩
      intro earlier hmem
      by_contra hne
      have h1 : (match earlier.name with
          | some name => decide (name = ssid)
          | none => false) = true := by simpa using hne
      exact hall earlier hmem ((name_matches_iff earlier ssid).1 h1)
  refine ⟨hfirst, ?_, ?_, ?_, ?_⟩
  · intro ssid service h
    obtain ⟨before, after, hxs, _, _⟩ := (hfirst ssid service).1 h
    rw [hxs]
    simp
  · intro ssid
    simp only [get_connman_service, List.find?_eq_none]
    constructor
    · intro h service hmem hname
      exact h service hmem ((name_matches_iff service ssid).2 hname)
    · intro h service hmem hmatch
      exact h service hmem ((name_matches_iff service ssid).1 hmatch)
  · intro first rest h
    simp [get_connman_service, h]
  · intro h
    simp [get_connman_service, h]

/-- C21, evaluated on `sample_manager`: the ssid `home` selects the wifi
service of that name, the ssid `cafe` selects nothing although a wired service
exists, and no ssid selects the wired service. -/
theorem get_connman_service_target_witness :
    get_connman_service sample_manager (some "home") = some wifi_ready
    ∧ get_connman_service sample_manager (some "cafe") = none
    ∧ sample_manager.wired_services ≠ []
    ∧ get_connman_service sample_manager none = some wired_online :=
  ⟨((get_connman_service_target sample_manager).1 "home" wifi_ready).2
      ⟨[], [], rfl, rfl, fun earlier h => by cases h⟩,
   ((get_connman_service_target sample_manager).2.2.1 "cafe").2
      (fun service hmem => by
        simp only [sample_manager, List.mem_singleton] at hmem
        subst hmem
        decide),
   by decide,
   (get_connman_service_target sample_manager).2.2.2.1 wired_online [] rfl⟩

/-! ## The name-server vector -/

theorem read_strv_of_mem_none (slots : List (Option String)) (h : none ∈ slots) :
    (read_strv slots).isSome = true := by
  induction slots with
  | nil => cases h
  | cons slot rest ih =>
    cases slot with
    | none => rfl
    | some text =>
      have hrest : none ∈ rest := by
        rcases List.mem_cons.1 h with h1 | h1
        · cases h1
        · exact h1
      have := ih hrest
      simp only [read_strv, Option.isSome_map']
      exact this

/-- A vector with room for its entries and the terminating NULL is stored and
walked inside its allocation. -/
theorem dns_vector_has_room_defined (dns : dns_vector) (h : dns_vector_has_room dns) :
    dns_stores_overflow dns = false ∧ dns_read_overflows dns = false := by
  obtain ⟨_, hterm⟩ := h
  simp only [dns_store_in_bounds] at hterm
  constructor
  · simp only [dns_stores_overflow, decide_eq_false_iff_not]
    omega
  · have hmem : none ∈ dns_vector_slots dns := by
      simp only [dns_vector_slots, List.mem_map, List.mem_range]
      refine ⟨dns.written.length, hterm, ?_⟩
      simp
    have := read_strv_of_mem_none _ hmem
    simp only [dns_read_overflows]
    cases hr : read_strv (dns_vector_slots dns) with
    | none => rw [hr] at this; cases this
    | some texts => rfl

/-- Every `setdns` request that reaches the vector with a non-empty array of
address strings leaves the allocation: the handler does not return. -/
theorem handle_set_dns_command_undefined (api : connman_api) (manager : connman_manager_t)
    (parsedObj : jvalue) (text : String) (texts : List String)
    (hcheck : (api.connman_status_check (some manager)).1 = true)
    (hparsed : jis_null parsedObj = false)
    (hdns : jobject_get_exists parsedObj "dns"
      = some (jvalue.jarray ((text :: texts).map jvalue.jstring))) :
    (handle_set_dns_command api (some manager) true parsedObj).ret = none := by
  cases texts with
  | nil =>
    have hstore : dns_stores_overflow
        (build_dns_vector (jvalue.jarray ([text].map jvalue.jstring))) = false := rfl
    have hread : dns_read_overflows
        (build_dns_vector (jvalue.jarray ([text].map jvalue.jstring))) = true := rfl
    simp only [handle_set_dns_command, hcheck, hparsed, hdns, hstore, hread]
    cases get_connman_service manager ((jobject_get_exists parsedObj "ssid").bind jstring_get)
      <;> simp
  | cons second rest =>
    have hstore : dns_stores_overflow
        (build_dns_vector (jvalue.jarray ((text :: second :: rest).map jvalue.jstring)))
          = true := by
      simp [dns_stores_overflow, build_dns_vector, jarray_size]
    simp only [handle_set_dns_command, hcheck, hparsed, hdns, hstore]
    simp

/-- C22, the failing runs: the vector built for a `dns` array always has one
slot, so it has room for its entries and the terminating NULL only when the
array is empty.  For `["8.8.8.8","1.1.1.1"]` the store `dns[1]` is outside the
allocation and no slot of the allocation is NULL: the handler does not get
past the loop.  For `["8.8.8.8"]` the one-slot vector without a NULL slot is
what the handler hands to the nameserver mutator, and it does not return. -/
theorem build_dns_vector_room :
    (∀ dnsObj : jvalue,
      (build_dns_vector dnsObj).allocated = 1
      ∧ (build_dns_vector dnsObj).written.length = jarray_size dnsObj
      ∧ (dns_vector_has_room (build_dns_vector dnsObj) ↔ jarray_size dnsObj = 0))
    ∧ ¬ dns_store_in_bounds
        (build_dns_vector (jvalue.jarray [jvalue.jstring "8.8.8.8", jvalue.jstring "1.1.1.1"]))
        1
    ∧ read_strv (dns_vector_slots
        (build_dns_vector (jvalue.jarray [jvalue.jstring "8.8.8.8", jvalue.jstring "1.1.1.1"])))
      = none
    ∧ read_strv (dns_vector_slots (build_dns_vector (jvalue.jarray [jvalue.jstring "8.8.8.8"])))
      = none
    ∧ read_strv (dns_vector_slots (build_dns_vector (jvalue.jarray []))) = some []
    ∧ (handle_set_dns_command reference_api (some sample_manager) true
        (jvalue.jobject
          [("dns", jvalue.jarray [jvalue.jstring "8.8.8.8", jvalue.jstring "1.1.1.1"])])).ret
      = none
    ∧ (handle_set_dns_command reference_api (some sample_manager) true
        (jvalue.jobject
          [("dns", jvalue.jarray [jvalue.jstring "8.8.8.8", jvalue.jstring "1.1.1.1"])])).effects
      = []
    ∧ (handle_set_dns_command reference_api (some sample_manager) true
        (jvalue.jobject [("dns", jvalue.jarray [jvalue.jstring "8.8.8.8"])])).ret = none
    ∧ (handle_set_dns_command reference_api (some sample_manager) true
        (jvalue.jobject [("dns", jvalue.jarray [jvalue.jstring "8.8.8.8"])])).effects
      = [effect.mutate (mutator_call.connman_service_set_nameservers wired_online
            { allocated := 1, written := [some "8.8.8.8"] })] := by
  refine ⟨?_, by decide, rfl, rfl, rfl, rfl, rfl, rfl, rfl⟩
  intro dnsObj
  refine ⟨rfl, by simp [build_dns_vector], ?_⟩
  simp only [dns_vector_has_room, dns_store_in_bounds, build_dns_vector, List.length_map,
    List.length_range]
  constructor
  · rintro ⟨_, h⟩
    omega
  · intro h
    rw [h]
    exact ⟨fun i hi => by omega, by omega⟩

end WebosConnman
